import Mathlib

/-!
# DataFlowOrchestrator: a shallow embedding

Embedding of `plugins/DataFlowOrchestrator.cpp` (dfmodules): the orchestrator
that hands trigger decisions to trigger-record-builder applications in a
round-robin, tracks outstanding assignments, and drives the trigger inhibit.

Conventions of the embedding

* `m_dataflow_availability` (a `std::map` from connection name to
  `TriggerRecordBuilderData`) is the list of its values in iteration order; the
  key of an entry is the `m_connection_name` of its value, as `do_conf` builds it.
* the iterator `m_last_assignement_it` is the index of the entry it points at;
  `end()` is the length of the list.
* the transport is an oracle: every `send` consumes the next `Bool` of a list of
  outcomes (`true`: the send returns, `false`: it throws `ers::Issue`). An empty
  list means that the transport has not answered yet, and the operation has no
  result (`none`).
* loops that the source does not bound (`do ... while (running)`) take a fuel.
* wall-clock readings are not modelled; the elapsed time that a completed
  assignment adds to its waiting-time accumulator is an argument of the callback.
* every observable effect (sends, warnings, errors) is appended to a log of
  `Event`s.
-/

namespace dfmodules

/-- dfmessages::TriggerDecision, reduced to the two fields the orchestrator reads. -/
structure TriggerDecision where
  trigger_number : Nat
  run_number : Nat
deriving DecidableEq, Repr

/-- dfmessages::TriggerDecisionToken. -/
structure TriggerDecisionToken where
  trigger_number : Nat
  run_number : Nat
  decision_destination : String
deriving DecidableEq, Repr

/-- dfmessages::TriggerInhibit, built in `notify_trigger` as `{ busy, m_run_number }`. -/
structure TriggerInhibit where
  busy : Bool
  run_number : Nat
deriving DecidableEq, Repr

/-- Modelled from the spec: `AssignedTriggerDecision` is declared in the absent
`TriggerRecordBuilderData.hpp`; spec section 3 gives it the fields `decision` and
`connection_name` (its `assigned_time` is a clock reading and is left out). -/
structure AssignedTriggerDecision where
  decision : TriggerDecision
  connection_name : String
deriving DecidableEq, Repr

/-- Modelled from the spec: the class `TriggerRecordBuilderData` (the Destination
Slot of spec sections 3 and 4.1) is not among the sources. Its state is the name,
the two thresholds, the outstanding assignments, the hysteretic busy flag and the
error flag. -/
structure TriggerRecordBuilderData where
  m_connection_name : String
  m_busy_threshold : Nat
  m_free_threshold : Nat
  m_assigned_trigger_decisions : List AssignedTriggerDecision
  m_is_busy : Bool
  m_in_error : Bool
deriving DecidableEq, Repr

/-- Modelled from the spec: the hysteresis rule of section 4.1, "a Slot is busy iff
used_slots >= busy_threshold, OR it was busy in the immediately prior state and
used_slots > free_threshold". -/
def hysteresis (was_busy : Bool) (used busy_threshold free_threshold : Nat) : Bool :=
  decide (busy_threshold ≤ used) || (was_busy && decide (free_threshold < used))

namespace TriggerRecordBuilderData

/-- Modelled from the spec: the constructor
`TriggerRecordBuilderData(connection_name, busy_threshold, free_threshold)` used by
`do_conf`: no outstanding assignment, not in error, busy as the hysteresis rule
gives it for zero used slots. -/
def create (connection_name : String) (busy_threshold free_threshold : Nat) :
    TriggerRecordBuilderData :=
  { m_connection_name := connection_name
    m_busy_threshold := busy_threshold
    m_free_threshold := free_threshold
    m_assigned_trigger_decisions := []
    m_is_busy := hysteresis false 0 busy_threshold free_threshold
    m_in_error := false }

/-- Modelled from the spec: `is_busy()`, "current hysteretic busy state". -/
def is_busy (s : TriggerRecordBuilderData) : Bool := s.m_is_busy

/-- Modelled from the spec: `used_slots()`, the number of outstanding assignments. -/
def used_slots (s : TriggerRecordBuilderData) : Nat := s.m_assigned_trigger_decisions.length

/-- Modelled from the spec: `is_in_error()`. -/
def is_in_error (s : TriggerRecordBuilderData) : Bool := s.m_in_error

/-- Modelled from the spec: `set_in_error(b)`. -/
def set_in_error (s : TriggerRecordBuilderData) (b : Bool) : TriggerRecordBuilderData :=
  { s with m_in_error := b }

/-- Modelled from the spec: `make_assignment(decision)` "constructs a tentative
assignment object without yet inserting it". -/
def make_assignment (s : TriggerRecordBuilderData) (decision : TriggerDecision) :
    AssignedTriggerDecision :=
  { decision := decision, connection_name := s.m_connection_name }

/-- Modelled from the spec: `add_assignment(a)` "inserts a into outstanding; updates
busy per hysteresis". -/
def add_assignment (s : TriggerRecordBuilderData) (a : AssignedTriggerDecision) :
    TriggerRecordBuilderData :=
  { s with
    m_assigned_trigger_decisions := s.m_assigned_trigger_decisions ++ [a]
    m_is_busy := hysteresis s.m_is_busy (s.m_assigned_trigger_decisions.length + 1)
      s.m_busy_threshold s.m_free_threshold }

/-- The outstanding assignments of a slot without the first one that carries the
given trigger number. -/
def remove_assignment (trigger_number : Nat) :
    List AssignedTriggerDecision → List AssignedTriggerDecision
  | [] => []
  | a :: rest =>
    if a.decision.trigger_number = trigger_number then rest
    else a :: remove_assignment trigger_number rest

/-- Modelled from the spec: `complete_assignment(trigger_number, metadata_fn)`
"removes and returns the matching record; fails with AssignedTriggerDecisionNotFound
if absent". The failure is `none` and leaves the slot as it is; on success the busy
flag follows the hysteresis rule. -/
def complete_assignment (s : TriggerRecordBuilderData) (trigger_number : Nat) :
    Option (AssignedTriggerDecision × TriggerRecordBuilderData) :=
  match s.m_assigned_trigger_decisions.find?
      (fun a => decide (a.decision.trigger_number = trigger_number)) with
  | none => none
  | some a =>
    some (a,
      { s with
        m_assigned_trigger_decisions :=
          remove_assignment trigger_number s.m_assigned_trigger_decisions
        m_is_busy := hysteresis s.m_is_busy (s.m_assigned_trigger_decisions.length - 1)
          s.m_busy_threshold s.m_free_threshold })

/-- Modelled from the spec: `flush()` "removes and returns all outstanding
assignments". -/
def flush (s : TriggerRecordBuilderData) :
    List AssignedTriggerDecision × TriggerRecordBuilderData :=
  (s.m_assigned_trigger_decisions,
    { s with
      m_assigned_trigger_decisions := []
      m_is_busy := hysteresis s.m_is_busy 0 s.m_busy_threshold s.m_free_threshold })

end TriggerRecordBuilderData

/-- What the orchestrator does that can be seen from outside: messages handed to
the transport, and the issues it reports through `ers`. -/
inductive Event where
  -- A `TriggerDecision` accepted by the sender of the named connection.
  | td_sent (connection_name : String) (decision : TriggerDecision)
  -- The warning `OperationFailed` of `dispatch`: the send to the connection threw.
  | td_send_failed (connection_name : String) (decision : TriggerDecision)
  -- A `TriggerInhibit` accepted by `m_busy_sender`.
  | inhibit_sent (message : TriggerInhibit)
  -- The warning `OperationFailed` of `notify_trigger`: the send of the message threw.
  | inhibit_send_failed (message : TriggerInhibit)
  -- The warning `DataFlowOrchestratorRunNumberMismatch`.
  | run_number_mismatch (received current : Nat)
  -- The warning `UnknownTokenSource`.
  | unknown_token_source (decision_destination : String)
  -- The warning `AssignedTriggerDecisionNotFound` caught and reported by the token callback.
  | assigned_trigger_decision_not_found (trigger_number : Nat) (connection_name : String)
  -- The error `TriggerRecordBuilderAppUpdate(..., "Could not send Trigger Decision")`.
  | could_not_send (connection_name : String)
  -- The log line `TriggerRecordBuilderAppUpdate(..., "Has reconnected")`.
  | has_reconnected (connection_name : String)
  -- The error `IncompleteTriggerDecision` of the stop drain.
  | incomplete_trigger_decision (trigger_number : Nat)
deriving DecidableEq, Repr

/-- The members of `DataFlowOrchestrator` that its methods read and write. -/
structure DataFlowOrchestrator where
  m_dataflow_availability : List TriggerRecordBuilderData
  m_app_infos : List (String × Nat × Nat)
  m_last_assignement_it : Nat
  m_run_number : Nat
  m_running_status : Bool
  m_last_notified_busy : Bool
  m_td_send_retries : Nat
  m_received_tokens : Nat
  m_sent_decisions : Nat
  m_received_decisions : Nat
  td_callback_bound : Bool
  token_callback_bound : Bool
deriving DecidableEq, Repr

/-- The value at a key of `m_dataflow_availability`, written in place:
`m_dataflow_availability[name].f(...)`, or a member call through the iterator that
`find(name)` returned. Keys are unique in a `std::map`, so the entry is the first
one with the name; the names passed here come from entries of the map. -/
def update_slot (name : String) (f : TriggerRecordBuilderData → TriggerRecordBuilderData) :
    List TriggerRecordBuilderData → List TriggerRecordBuilderData
  | [] => []
  | s :: rest =>
    if s.m_connection_name = name then f s :: rest else s :: update_slot name f rest

/-- The entry `m_app_infos[name]` after `++info_data.first; info_data.second += elapsed`;
`operator[]` creates the entry when the key is new. -/
def record_completion (name : String) (elapsed : Nat) :
    List (String × Nat × Nat) → List (String × Nat × Nat)
  | [] => [(name, 1, elapsed)]
  | (key, completed, waiting) :: rest =>
    if key = name then (key, completed + 1, waiting + elapsed) :: rest
    else (key, completed, waiting) :: record_completion name elapsed rest

/-- The value a 32-bit `int` holds after it is initialised from an unsigned value
(`int retries = m_td_send_retries`): the value modulo 2^32, read in two's
complement. Values below 2^31 are kept; 4294967295 becomes -1. -/
def to_int32 (n : Nat) : Int :=
  if n % 4294967296 < 2147483648 then Int.ofNat (n % 4294967296)
  else Int.ofNat (n % 4294967296) - 4294967296

namespace DataFlowOrchestrator

/-- `do_conf`: one `TriggerRecordBuilderData` and one `m_app_infos` entry per
configured application, and the retry budget. Modelled from the spec: the container
type of `m_dataflow_availability` is declared in the absent header; section 3 makes
its iteration order the configuration order, so a new name is appended. -/
def do_conf (st : DataFlowOrchestrator) (apps : List (String × Nat × Nat))
    (td_send_retries : Nat) : DataFlowOrchestrator :=
  let st1 := apps.foldl
    (fun (acc : DataFlowOrchestrator) (app : String × Nat × Nat) =>
      let slot := TriggerRecordBuilderData.create app.1 app.2.1 app.2.2
      { acc with
        m_dataflow_availability :=
          if acc.m_dataflow_availability.any (fun s => decide (s.m_connection_name = app.1)) then
            update_slot app.1 (fun _ => slot) acc.m_dataflow_availability
          else acc.m_dataflow_availability ++ [slot]
        m_app_infos :=
          if acc.m_app_infos.any (fun e => decide (e.1 = app.1)) then acc.m_app_infos
          else acc.m_app_infos ++ [(app.1, 0, 0)] })
    st
  { st1 with m_td_send_retries := td_send_retries }

/-- `do_start`: resets the token counter, takes the run number, raises the running
flag, resets the last notified inhibit to false (nothing is sent), puts the
round-robin cursor on `end()` and binds both callbacks. -/
def do_start (st : DataFlowOrchestrator) (run : Nat) : DataFlowOrchestrator :=
  { st with
    m_received_tokens := 0
    m_run_number := run
    m_running_status := true
    m_last_notified_busy := false
    m_last_assignement_it := st.m_dataflow_availability.length
    token_callback_bound := true
    td_callback_bound := true }

/-- The loop of `DataFlowOrchestrator::is_busy`: `return false` at the first entry
that is not busy, `return true` after the last one. -/
def is_busy_loop : List TriggerRecordBuilderData → Bool
  | [] => true
  | dfapp :: rest => if !dfapp.is_busy then false else is_busy_loop rest

/-- `DataFlowOrchestrator::is_busy`. -/
def is_busy (st : DataFlowOrchestrator) : Bool :=
  is_busy_loop st.m_dataflow_availability

/-- The loop of `DataFlowOrchestrator::is_empty`: `return false` at the first entry
with a used slot, `return true` after the last one. -/
def is_empty_loop : List TriggerRecordBuilderData → Bool
  | [] => true
  | dfapp :: rest => if dfapp.used_slots != 0 then false else is_empty_loop rest

/-- `DataFlowOrchestrator::is_empty`. -/
def is_empty (st : DataFlowOrchestrator) : Bool :=
  is_empty_loop st.m_dataflow_availability

/-- The `while` loop of `find_slot`. `remaining` is `size() - counter`, `candidate`
the index `candidate_it` points at. Each turn steps the iterator, wraps it from
`end()` to `begin()`, skips a busy entry, and otherwise returns the new cursor
with the tentative assignment. -/
def find_slot_loop (registry : List TriggerRecordBuilderData) (decision : TriggerDecision) :
    Nat → Nat → Option (Nat × AssignedTriggerDecision)
  | 0, _ => none
  | remaining + 1, candidate =>
    let next := if candidate + 1 = registry.length then 0 else candidate + 1
    match registry[next]? with
    | none => none
    | some slot =>
      if slot.is_busy then find_slot_loop registry decision remaining next
      else some (next, slot.make_assignment decision)

/-- `find_slot`: the probe starts from `m_last_assignement_it`, or from `begin()`
when the cursor is `end()`; on success the cursor moves to the chosen entry. -/
def find_slot (st : DataFlowOrchestrator) (decision : TriggerDecision) :
    Option AssignedTriggerDecision × DataFlowOrchestrator :=
  let candidate :=
    if st.m_last_assignement_it = st.m_dataflow_availability.length then 0
    else st.m_last_assignement_it
  match find_slot_loop st.m_dataflow_availability decision
      st.m_dataflow_availability.length candidate with
  | none => (none, st)
  | some (cursor, output) => (some output, { st with m_last_assignement_it := cursor })

/-- The `do ... while (!wasSentSuccessfully && running && retries > 0)` loop of
`dispatch`: a turn consumes one transport outcome, counts a success in
`m_sent_decisions`, and decrements `retries`. The result is
`wasSentSuccessfully`, the new `m_sent_decisions`, the log and the unused outcomes.
`retries` is the 32-bit `int` of the source; it only decreases, and the loop leaves
as soon as it is not positive, so the one decrement that can leave the range of
`int` is that of the least `int`, which the source leaves undefined. -/
def dispatch_loop (running : Bool) (assignment : AssignedTriggerDecision) :
    List Bool → Int → Nat → Option (Bool × Nat × List Event × List Bool)
  | [], _, _ => none
  | true :: rest, _, sent =>
    some (true, sent + 1, [Event.td_sent assignment.connection_name assignment.decision], rest)
  | false :: rest, retries, sent =>
    if running && decide (retries - 1 > 0) then
      match dispatch_loop running assignment rest (retries - 1) sent with
      | none => none
      | some (ok, sent1, log, rest1) =>
        some (ok, sent1,
          Event.td_send_failed assignment.connection_name assignment.decision :: log, rest1)
    else
      some (false, sent,
        [Event.td_send_failed assignment.connection_name assignment.decision], rest)

/-- `dispatch`: `int retries = m_td_send_retries` (the configured budget narrowed to
the 32-bit `int`), then the send loop. -/
def dispatch (st : DataFlowOrchestrator) (assignment : AssignedTriggerDecision)
    (outcomes : List Bool) : Option (Bool × DataFlowOrchestrator × List Event × List Bool) :=
  match dispatch_loop st.m_running_status assignment outcomes
      (to_int32 st.m_td_send_retries) st.m_sent_decisions with
  | none => none
  | some (ok, sent, log, rest) => some (ok, { st with m_sent_decisions := sent }, log, rest)

/-- `assign_trigger_decision`: `add_assignment` on the entry named by the assignment. -/
def assign_trigger_decision (st : DataFlowOrchestrator) (assignment : AssignedTriggerDecision) :
    DataFlowOrchestrator :=
  { st with
    m_dataflow_availability :=
      update_slot assignment.connection_name (fun s => s.add_assignment assignment)
        st.m_dataflow_availability }

/-- The `do ... while (!wasSentSuccessfully && running)` loop of `notify_trigger`:
the log of the attempts and the unused outcomes. -/
def notify_trigger_loop (running : Bool) (message : TriggerInhibit) :
    List Bool → Option (List Event × List Bool)
  | [] => none
  | true :: rest => some ([Event.inhibit_sent message], rest)
  | false :: rest =>
    if running then
      match notify_trigger_loop running message rest with
      | none => none
      | some (log, rest1) => some (Event.inhibit_send_failed message :: log, rest1)
    else some ([Event.inhibit_send_failed message], rest)

/-- `notify_trigger`: nothing when `busy` is the last notified value; otherwise the
send loop, and then `m_last_notified_busy.store(busy)` whatever the loop did. -/
def notify_trigger (st : DataFlowOrchestrator) (busy : Bool) (outcomes : List Bool) :
    Option (DataFlowOrchestrator × List Event × List Bool) :=
  if busy = st.m_last_notified_busy then some (st, [], outcomes)
  else
    match notify_trigger_loop st.m_running_status
        { busy := busy, run_number := st.m_run_number } outcomes with
    | none => none
    | some (log, rest) => some ({ st with m_last_notified_busy := busy }, log, rest)

/-- The `do ... while (m_running_status.load())` loop of `receive_trigger_decision`.
A turn looks for a slot; without one it goes to the loop test; with one it
dispatches, and then either records the assignment and leaves the loop, or
reports the error, marks the entry in error and goes to the loop test. -/
def decision_loop (decision : TriggerDecision) :
    Nat → DataFlowOrchestrator → List Bool →
      Option (DataFlowOrchestrator × List Event × List Bool)
  | 0, _, _ => none
  | fuel + 1, st, outcomes =>
    match find_slot st decision with
    | (none, st1) =>
      if st1.m_running_status then decision_loop decision fuel st1 outcomes
      else some (st1, [], outcomes)
    | (some assignment, st1) =>
      match dispatch st1 assignment outcomes with
      | none => none
      | some (true, st2, log, rest) => some (assign_trigger_decision st2 assignment, log, rest)
      | some (false, st2, log, rest) =>
        let st3 := { st2 with
          m_dataflow_availability :=
            update_slot assignment.connection_name (fun s => s.set_in_error true)
              st2.m_dataflow_availability }
        let log1 := log ++ [Event.could_not_send assignment.connection_name]
        if st3.m_running_status then
          match decision_loop decision fuel st3 rest with
          | none => none
          | some (st4, log2, rest2) => some (st4, log1 ++ log2, rest2)
        else some (st3, log1, rest)

/-- `receive_trigger_decision`: the run-number filter, the count of received
decisions, the placement loop, and `notify_trigger(is_busy())`. -/
def receive_trigger_decision (st : DataFlowOrchestrator) (decision : TriggerDecision)
    (fuel : Nat) (outcomes : List Bool) : Option (DataFlowOrchestrator × List Event) :=
  if decision.run_number ≠ st.m_run_number then
    some (st, [Event.run_number_mismatch decision.run_number st.m_run_number])
  else
    let st1 := { st with m_received_decisions := st.m_received_decisions + 1 }
    match decision_loop decision fuel st1 outcomes with
    | none => none
    | some (st2, log, rest) =>
      match notify_trigger st2 (is_busy st2) rest with
      | none => none
      | some (st3, log1, _) => some (st3, log ++ log1)

/-- `receive_trigger_complete_token`: the run-number filter, the lookup of the
destination, the count of received tokens, `complete_assignment` with the
completion record (skipped when it throws `AssignedTriggerDecisionNotFound`),
the clearing of the error flag, and `notify_trigger(false)` when the entry is
not busy. -/
def receive_trigger_complete_token (st : DataFlowOrchestrator) (token : TriggerDecisionToken)
    (elapsed : Nat) (outcomes : List Bool) : Option (DataFlowOrchestrator × List Event) :=
  if token.run_number ≠ st.m_run_number then
    some (st, [Event.run_number_mismatch token.run_number st.m_run_number])
  else
    match st.m_dataflow_availability.find?
        (fun s => decide (s.m_connection_name = token.decision_destination)) with
    | none => some (st, [Event.unknown_token_source token.decision_destination])
    | some app =>
      let st1 := { st with m_received_tokens := st.m_received_tokens + 1 }
      let (app1, st2, log1) :=
        match app.complete_assignment token.trigger_number with
        | some (_, app1) =>
          (app1,
            { st1 with m_app_infos :=
                record_completion app.m_connection_name elapsed st1.m_app_infos },
            ([] : List Event))
        | none =>
          (app, st1,
            [Event.assigned_trigger_decision_not_found token.trigger_number
              app.m_connection_name])
      let (app2, log2) :=
        if app1.is_in_error then
          (app1.set_in_error false, [Event.has_reconnected token.decision_destination])
        else (app1, [])
      let st3 := { st2 with
        m_dataflow_availability :=
          update_slot token.decision_destination (fun _ => app2) st2.m_dataflow_availability }
      if !app2.is_busy then
        match notify_trigger st3 false outcomes with
        | none => none
        | some (st4, log3, _) => some (st4, log1 ++ log2 ++ log3)
      else some (st3, log1 ++ log2)

/-- The polling loop of `do_stop`,
`while (!is_empty() && step_counter < wait_steps) sleep_for(step_timeout);`
with no callback running in between. The fuel bounds the number of evaluations of
the loop test; the result is the number of sleeps. The body does not touch
`step_counter`. -/
def stop_poll (st : DataFlowOrchestrator) (wait_steps : Nat) : Nat → Nat → Option Nat
  | 0, _ => none
  | fuel + 1, step_counter =>
    if !is_empty st && decide (step_counter < wait_steps) then
      match stop_poll st wait_steps fuel step_counter with
      | none => none
      | some sleeps => some (sleeps + 1)
    else some 0

/-- Modelled from the spec: the first loop of the drain step of `do_stop`. The loop
over `m_dataflow_availability` and the appending of `temp` to `remnants` are the
source; the right-hand side of source line 146, `auto temp = app.flush;`, names the
member on the map entry without calling it and is ill-formed, so the source gives
`temp` no value. What is missing is taken from section 5, step 5 ("for every Slot
still non-empty, flush it"): `temp` is what `flush()` of the entry returns. -/
def drain_flush : List TriggerRecordBuilderData →
    List AssignedTriggerDecision × List TriggerRecordBuilderData
  | [] => ([], [])
  | app :: rest =>
    let (temp, app1) := app.flush
    let (remnants, rest1) := drain_flush rest
    (temp ++ remnants, app1 :: rest1)

/-- The drain step of `do_stop` (after the token callback is removed): the loop that
gathers the remnants (`drain_flush`, whose flush is modelled from the spec) and one
`IncompleteTriggerDecision` error per remnant. -/
def stop_drain (st : DataFlowOrchestrator) : DataFlowOrchestrator × List Event :=
  let (remnants, registry) := drain_flush st.m_dataflow_availability
  ({ st with m_dataflow_availability := registry },
    remnants.map (fun r => Event.incomplete_trigger_decision r.decision.trigger_number))

/-- The head of `do_stop`: `m_running_status.store(false)` and the removal of the
decision callback. Token callbacks still run after it. -/
def do_stop_begin (st : DataFlowOrchestrator) : DataFlowOrchestrator :=
  { st with m_running_status := false, td_callback_bound := false }

/-- The rest of `do_stop`: the poll of `is_empty` (`wait_steps = 20`,
`step_counter = 0`), the removal of the token callback, and the drain. -/
def do_stop_end (st : DataFlowOrchestrator) (fuel : Nat) :
    Option (DataFlowOrchestrator × List Event) :=
  match stop_poll st 20 fuel 0 with
  | none => none
  | some _ => some (stop_drain { st with token_callback_bound := false })

/-- `do_stop`, with no token arriving while it runs. -/
def do_stop (st : DataFlowOrchestrator) (fuel : Nat) : Option (DataFlowOrchestrator × List Event) :=
  do_stop_end (do_stop_begin st) fuel

end DataFlowOrchestrator

/-! ## Traces and observations -/

/-- One step of a trace of the orchestrator. `do_stop` is not atomic: token
callbacks run between its store to `m_running_status` and the end of its poll, so
a trace lists its two halves. -/
inductive Operation where
  | start (run : Nat)
  | decision (decision : TriggerDecision) (fuel : Nat) (outcomes : List Bool)
  | token (token : TriggerDecisionToken) (elapsed : Nat) (outcomes : List Bool)
  | stop_begin
  | stop_end (fuel : Nat)
deriving Repr

/-- The effect of one operation: the next state and what the operation logged. -/
def step (st : DataFlowOrchestrator) : Operation → Option (DataFlowOrchestrator × List Event)
  | Operation.start run => some (st.do_start run, [])
  | Operation.decision d fuel outcomes => st.receive_trigger_decision d fuel outcomes
  | Operation.token t elapsed outcomes => st.receive_trigger_complete_token t elapsed outcomes
  | Operation.stop_begin => some (st.do_stop_begin, [])
  | Operation.stop_end fuel => st.do_stop_end fuel

/-- The operations of a trace one after the other: the final state and the log of
each operation. -/
def run_trace (st : DataFlowOrchestrator) :
    List Operation → Option (DataFlowOrchestrator × List (List Event))
  | [] => some (st, [])
  | op :: ops =>
    match step st op with
    | none => none
    | some (st1, log) =>
      match run_trace st1 ops with
      | none => none
      | some (st2, logs) => some (st2, log :: logs)

/-- The busy values of the `TriggerInhibit` messages that were sent successfully,
in the order of the sends. -/
def emitted : List Event → List Bool
  | [] => []
  | Event.inhibit_sent message :: rest => message.busy :: emitted rest
  | _ :: rest => emitted rest

/-- A log ends with a failed inhibit send exactly when `notify_trigger` left its
loop without a successful send (the running flag was down). -/
def abandoned (log : List Event) : Bool :=
  match log.getLast? with
  | some (Event.inhibit_send_failed _) => true
  | _ => false

/-- The number of sends of a `TriggerDecision` that a log records, failed or not. -/
def send_attempts : List Event → Nat
  | [] => 0
  | Event.td_sent _ _ :: rest => send_attempts rest + 1
  | Event.td_send_failed _ _ :: rest => send_attempts rest + 1
  | _ :: rest => send_attempts rest

/-- Successive calls of `find_slot`, one per decision, nothing else happening in
between: what each call returned, and the cursor after it. -/
def find_slot_calls (st : DataFlowOrchestrator) :
    List TriggerDecision → List (Option AssignedTriggerDecision × Nat)
  | [] => []
  | d :: ds =>
    let r := st.find_slot d
    (r.1, r.2.m_last_assignement_it) :: find_slot_calls r.2 ds

/-- The current-run decisions with the given trigger numbers, delivered in order
while every send succeeds at once. -/
def feed_decisions (run : Nat) (trigger_numbers : List Nat) : List Operation :=
  trigger_numbers.map
    (fun n => Operation.decision { trigger_number := n, run_number := run } 1 [true, true])

/-- An orchestrator before `do_conf`: no destination, run number 0 as the
constructor sets it, every counter at zero, not running, no callback bound. -/
def initial : DataFlowOrchestrator :=
  { m_dataflow_availability := []
    m_app_infos := []
    m_last_assignement_it := 0
    m_run_number := 0
    m_running_status := false
    m_last_notified_busy := false
    m_td_send_retries := 0
    m_received_tokens := 0
    m_sent_decisions := 0
    m_received_decisions := 0
    td_callback_bound := false
    token_callback_bound := false }

/-- Scenario S1: destinations A, B, C with thresholds (busy = 2, free = 1), three
send attempts per decision, run 7 started. -/
def scenario_S1 : DataFlowOrchestrator :=
  (initial.do_conf [("A", 2, 1), ("B", 2, 1), ("C", 2, 1)] 3).do_start 7

/-- The successful `TriggerDecision` sends of a log, in order: the destination and
the trigger number of each. -/
def decision_sends : List Event → List (String × Nat)
  | [] => []
  | Event.td_sent connection_name decision :: rest =>
    (connection_name, decision.trigger_number) :: decision_sends rest
  | _ :: rest => decision_sends rest

/-- A single destination A with thresholds (busy = 1, free = 0), one send attempt
per decision, run 7 started. -/
def scenario_single : DataFlowOrchestrator :=
  (initial.do_conf [("A", 1, 0)] 1).do_start 7

/-- The single destination A of `scenario_single` with decision 1 of run 7
outstanding. -/
def scenario_outstanding : DataFlowOrchestrator :=
  { scenario_single with
    m_dataflow_availability :=
      [(TriggerRecordBuilderData.create "A" 1 0).add_assignment
        { decision := { trigger_number := 1, run_number := 7 }, connection_name := "A" }] }

/-- Two decisions outstanding at A and one at B, as in scenario S6. -/
def scenario_S6 : DataFlowOrchestrator :=
  { scenario_single with
    m_dataflow_availability :=
      [((TriggerRecordBuilderData.create "A" 3 1).add_assignment
          { decision := { trigger_number := 1, run_number := 7 }, connection_name := "A" }).add_assignment
          { decision := { trigger_number := 3, run_number := 7 }, connection_name := "A" },
        (TriggerRecordBuilderData.create "B" 3 1).add_assignment
          { decision := { trigger_number := 2, run_number := 7 }, connection_name := "B" }] }

/-- The single destination A of `scenario_single`, in error and with nothing
outstanding. -/
def scenario_in_error : DataFlowOrchestrator :=
  { scenario_single with
    m_dataflow_availability := [(TriggerRecordBuilderData.create "A" 1 0).set_in_error true] }

/-- An event of `notify_trigger`: a `TriggerInhibit` send, successful or not. -/
def is_inhibit : Event → Bool
  | Event.inhibit_sent _ => true
  | Event.inhibit_send_failed _ => true
  | _ => false

/-- Every entry differs from the one before it, the first one from `previous`. -/
def alternates_from (previous : Bool) : List Bool → Bool
  | [] => true
  | b :: rest => (b != previous) && alternates_from b rest

/-- No two consecutive entries of the list are equal. -/
def no_repeat : List Bool → Bool
  | [] => true
  | b :: rest => alternates_from b rest

/-- An operation other than `do_start`. -/
def within_run : Operation → Bool
  | Operation.start _ => false
  | _ => true

/-- The destination A with thresholds (busy = 1, free = 0), configured and not yet
started. -/
def configured_single : DataFlowOrchestrator :=
  initial.do_conf [("A", 1, 0)] 1

/-! ## Theorems -/

/-! ### Round-robin selection -/

theorem wrap_eq_mod (i n : Nat) (h : i < n) :
    (if i + 1 = n then 0 else i + 1) = (i + 1) % n := by
  split
  · next h1 => rw [h1, Nat.mod_self]
  · next h1 => rw [Nat.mod_eq_of_lt (by omega)]

theorem find_slot_loop_not_busy (registry : List TriggerRecordBuilderData) (d : TriggerDecision)
    (remaining candidate : Nat) (slot : TriggerRecordBuilderData)
    (hslot : registry[if candidate + 1 = registry.length then 0 else candidate + 1]? = some slot)
    (hbusy : slot.is_busy = false) :
    DataFlowOrchestrator.find_slot_loop registry d (remaining + 1) candidate =
      some ((if candidate + 1 = registry.length then 0 else candidate + 1),
        slot.make_assignment d) := by
  simp only [DataFlowOrchestrator.find_slot_loop, hslot, hbusy]
  simp

theorem find_slot_after_start (st : DataFlowOrchestrator) (run : Nat) (d : TriggerDecision)
    (slot : TriggerRecordBuilderData)
    (hslot : st.m_dataflow_availability[1 % st.m_dataflow_availability.length]? = some slot)
    (hbusy : slot.is_busy = false) :
    (st.do_start run).find_slot d =
      (some (slot.make_assignment d),
        { st.do_start run with
          m_last_assignement_it := 1 % st.m_dataflow_availability.length }) := by
  have hN : 0 < st.m_dataflow_availability.length := by
    rcases Nat.eq_zero_or_pos st.m_dataflow_availability.length with h0 | h0
    · rw [List.length_eq_zero] at h0
      rw [h0] at hslot
      simp at hslot
    · exact h0
  obtain ⟨n, hn⟩ := Nat.exists_eq_succ_of_ne_zero (Nat.pos_iff_ne_zero.mp hN)
  have hw := wrap_eq_mod 0 _ hN
  simp only [Nat.zero_add] at hw
  have hl := find_slot_loop_not_busy st.m_dataflow_availability d n 0 slot
    (by simp only [Nat.zero_add]; rw [hw]; exact hslot) hbusy
  simp only [Nat.zero_add] at hl
  rw [hw] at hl
  simp only [DataFlowOrchestrator.find_slot, DataFlowOrchestrator.do_start, if_true]
  rw [hn] at hl ⊢
  simp only [Nat.succ_eq_add_one] at hl ⊢
  rw [hl]

theorem find_slot_of_free (st : DataFlowOrchestrator) (d : TriggerDecision)
    (hfree : ∀ s ∈ st.m_dataflow_availability, s.is_busy = false)
    (hi : st.m_last_assignement_it < st.m_dataflow_availability.length) :
    st.find_slot d =
      (st.m_dataflow_availability[
          (st.m_last_assignement_it + 1) % st.m_dataflow_availability.length]?.map
          (fun s => s.make_assignment d),
        { st with m_last_assignement_it :=
            (st.m_last_assignement_it + 1) % st.m_dataflow_availability.length }) := by
  have hlt : (st.m_last_assignement_it + 1) % st.m_dataflow_availability.length
      < st.m_dataflow_availability.length := Nat.mod_lt _ (by omega)
  obtain ⟨slot, hslot⟩ : ∃ slot, st.m_dataflow_availability[
      (st.m_last_assignement_it + 1) % st.m_dataflow_availability.length]? = some slot :=
    ⟨_, List.getElem?_eq_getElem hlt⟩
  have hmem : slot ∈ st.m_dataflow_availability := List.getElem?_mem hslot
  obtain ⟨n, hn⟩ := Nat.exists_eq_succ_of_ne_zero
    (Nat.pos_iff_ne_zero.mp (Nat.lt_of_le_of_lt (Nat.zero_le _) hi))
  have hw := wrap_eq_mod _ _ hi
  have hl := find_slot_loop_not_busy st.m_dataflow_availability d n st.m_last_assignement_it slot
    (by rw [hw]; exact hslot) (hfree slot hmem)
  rw [hw] at hl
  have hne : st.m_last_assignement_it ≠ st.m_dataflow_availability.length := by omega
  simp only [DataFlowOrchestrator.find_slot, if_neg hne]
  rw [hslot]
  conv_lhs => rw [hn]
  simp only [Nat.succ_eq_add_one]
  rw [hl]
  rfl

theorem find_slot_calls_of_free (ds : List TriggerDecision) :
    ∀ (st : DataFlowOrchestrator),
      (∀ s ∈ st.m_dataflow_availability, s.is_busy = false) →
      st.m_last_assignement_it < st.m_dataflow_availability.length →
      find_slot_calls st ds =
        ds.enum.map (fun jd =>
          (st.m_dataflow_availability[
              (st.m_last_assignement_it + 1 + jd.1) % st.m_dataflow_availability.length]?.map
              (fun s => s.make_assignment jd.2),
            (st.m_last_assignement_it + 1 + jd.1) % st.m_dataflow_availability.length)) := by
  induction ds with
  | nil => intro st _ _; rfl
  | cons d ds ih =>
    intro st hfree hi
    have hstep := find_slot_of_free st d hfree hi
    have hN : 0 < st.m_dataflow_availability.length := by omega
    simp only [find_slot_calls, List.enum_cons, List.map_cons, Nat.add_zero]
    rw [hstep]
    simp only
    congr 1
    rw [ih _ (by simpa using hfree) (by simpa using Nat.mod_lt _ hN)]
    simp only
    rw [← List.map_fst_add_enum_eq_enumFrom, List.map_map]
    apply List.map_congr_left
    intro jd _
    have hmod : ((st.m_last_assignement_it + 1) % st.m_dataflow_availability.length + 1 + jd.1)
          % st.m_dataflow_availability.length
        = (st.m_last_assignement_it + 1 + (jd.1 + 1)) % st.m_dataflow_availability.length := by
      rw [Nat.add_assoc, Nat.mod_add_mod, Nat.add_assoc, Nat.add_assoc]
      congr 2
      omega
    simp [hmod]

theorem round_robin_index_inj (i n j1 j2 : Nat) (h1 : j1 < n) (h2 : j2 < n)
    (h : (i + 1 + j1) % n = (i + 1 + j2) % n) : j1 = j2 := by
  have hm : j1 % n = j2 % n := Nat.ModEq.add_left_cancel' (i + 1) h
  rwa [Nat.mod_eq_of_lt h1, Nat.mod_eq_of_lt h2] at hm

theorem round_robin_indices_nodup (i n k : Nat) (hk : k ≤ n) :
    ((List.range k).map (fun j => (i + 1 + j) % n)).Nodup := by
  refine List.Nodup.map_on ?_ (List.nodup_range k)
  intro j1 hj1 j2 hj2 h
  rw [List.mem_range] at hj1 hj2
  exact round_robin_index_inj i n j1 j2 (by omega) (by omega) h

/-! ### C1: where the round-robin starts -/

/-- C1 (counterexample). In scenario S1 (destinations A, B, C, thresholds (2, 1),
cursor on the end sentinel after `do_start`, nothing busy or in error) the first
`find_slot` returns an assignment for B, the second entry, not for A; fed the
decisions 1..6 with every send succeeding, the orchestrator does not send
A<-1, B<-2, C<-3, A<-4, B<-5, C<-6. -/
theorem C1_start_position_counterexample :
    scenario_S1.m_dataflow_availability.map
        (fun s => (s.m_connection_name, s.is_busy, s.is_in_error))
      = [("A", false, false), ("B", false, false), ("C", false, false)] ∧
    scenario_S1.m_last_assignement_it = scenario_S1.m_dataflow_availability.length ∧
    (scenario_S1.find_slot { trigger_number := 1, run_number := 7 }).1
      = some { decision := { trigger_number := 1, run_number := 7 }, connection_name := "B" } ∧
    (run_trace scenario_S1 (feed_decisions 7 [1, 2, 3, 4, 5, 6])).map
        (fun r => decision_sends r.2.flatten)
      ≠ some [("A", 1), ("B", 2), ("C", 3), ("A", 4), ("B", 5), ("C", 6)] := by
  decide

/-- C1 (amended). After `do_start` the probe of `find_slot` starts from `begin()` and
steps before it looks: in scenario S1 (no slot in error, every send succeeding) the
decisions 1..6 are sent as B<-1, C<-2, A<-3, B<-4, C<-5, A<-6; and for every
registry of N >= 1 entries whose entry at index 1 mod N (the second entry, or the
only one) is neither busy nor in error, the first `find_slot` after start returns
an assignment for that entry and leaves the cursor on it. -/
theorem C1_round_robin_start :
    (run_trace scenario_S1 (feed_decisions 7 [1, 2, 3, 4, 5, 6])).map
        (fun r => decision_sends r.2.flatten)
      = some [("B", 1), ("C", 2), ("A", 3), ("B", 4), ("C", 5), ("A", 6)] ∧
    ∀ (st : DataFlowOrchestrator) (run : Nat) (d : TriggerDecision)
      (slot : TriggerRecordBuilderData),
      st.m_dataflow_availability[1 % st.m_dataflow_availability.length]? = some slot →
      slot.is_busy = false →
      slot.is_in_error = false →
      (st.do_start run).find_slot d =
        (some (slot.make_assignment d),
          { st.do_start run with
            m_last_assignement_it := 1 % st.m_dataflow_availability.length }) :=
  ⟨by decide, fun st run d slot hslot hbusy _ => find_slot_after_start st run d slot hslot hbusy⟩

/-- C1 (witness). The general part of the amended claim at a registry of the two
destinations A and B, neither busy nor in error: the first `find_slot` after start
returns B. -/
theorem C1_round_robin_start_witness :
    ((initial.do_conf [("A", 2, 1), ("B", 2, 1)] 3).do_start 7).find_slot
        { trigger_number := 1, run_number := 7 }
      = (some { decision := { trigger_number := 1, run_number := 7 }, connection_name := "B" },
          { (initial.do_conf [("A", 2, 1), ("B", 2, 1)] 3).do_start 7 with
            m_last_assignement_it := 1 }) :=
  C1_round_robin_start.2 (initial.do_conf [("A", 2, 1), ("B", 2, 1)] 3) 7
    { trigger_number := 1, run_number := 7 } (TriggerRecordBuilderData.create "B" 2 1)
    (by decide) (by decide) (by decide)

/-! ### C2: entries in error -/

/-- C2 (the code at the failing input). `find_slot` tests `is_busy()` only. With the
single destination A in error and not busy, `find_slot` returns an assignment for
A; and when the one send of decision 1 to A fails, `receive_trigger_decision` marks
A in error, and its next `find_slot` picks A again, no token having arrived: the
decision is sent to A and recorded there while A is still in error. -/
theorem C2_in_error_slot_is_selected :
    scenario_in_error.m_dataflow_availability.map
        (fun s => (s.m_connection_name, s.is_busy, s.is_in_error))
      = [("A", false, true)] ∧
    (scenario_in_error.find_slot { trigger_number := 1, run_number := 7 }).1
      = some { decision := { trigger_number := 1, run_number := 7 }, connection_name := "A" } ∧
    (scenario_single.receive_trigger_decision { trigger_number := 1, run_number := 7 } 2
        [false, true, true]).map (fun r => (r.1.m_dataflow_availability, r.2))
      = some
          ([{ m_connection_name := "A"
              m_busy_threshold := 1
              m_free_threshold := 0
              m_assigned_trigger_decisions :=
                [{ decision := { trigger_number := 1, run_number := 7 }, connection_name := "A" }]
              m_is_busy := true
              m_in_error := true }],
            [Event.td_send_failed "A" { trigger_number := 1, run_number := 7 },
              Event.could_not_send "A",
              Event.td_sent "A" { trigger_number := 1, run_number := 7 },
              Event.inhibit_sent { busy := true, run_number := 7 }]) := by
  decide

/-! ### C3: round-robin fairness -/

/-- C3. In a registry of N >= 1 entries none of which is busy, with the cursor on
the entry at index i and K <= N decisions, K successive `find_slot` calls return
assignments for the entries at indices i+1, ..., i+K (mod N), each call leaving the
cursor on the entry it returned; the K cursor positions are pairwise distinct, and
so are the K destination names (the keys of the map are distinct). -/
theorem C3_round_robin_fairness (st : DataFlowOrchestrator) (ds : List TriggerDecision)
    (hfree : ∀ s ∈ st.m_dataflow_availability, s.is_busy = false)
    (hcursor : st.m_last_assignement_it < st.m_dataflow_availability.length)
    (hK : ds.length ≤ st.m_dataflow_availability.length)
    (hnames : (st.m_dataflow_availability.map (fun s => s.m_connection_name)).Nodup) :
    find_slot_calls st ds =
        ds.enum.map (fun jd =>
          (st.m_dataflow_availability[
              (st.m_last_assignement_it + 1 + jd.1) % st.m_dataflow_availability.length]?.map
              (fun s => s.make_assignment jd.2),
            (st.m_last_assignement_it + 1 + jd.1) % st.m_dataflow_availability.length)) ∧
      (∀ r ∈ find_slot_calls st ds, r.1.isSome = true) ∧
      ((find_slot_calls st ds).map (fun r => r.2)).Nodup ∧
      ((find_slot_calls st ds).map (fun r => r.1.map (fun a => a.connection_name))).Nodup := by
  have hN : 0 < st.m_dataflow_availability.length := by omega
  have hcalls := find_slot_calls_of_free ds st hfree hcursor
  refine ⟨hcalls, ?_, ?_, ?_⟩
  · intro r hr
    rw [hcalls, List.mem_map] at hr
    obtain ⟨jd, _, rfl⟩ := hr
    have hlt := Nat.mod_lt (st.m_last_assignement_it + 1 + jd.1) hN
    simp [List.getElem?_eq_getElem hlt]
  · rw [hcalls, List.map_map]
    have hrange : (ds.enum.map ((fun (r : Option AssignedTriggerDecision × Nat) => r.2) ∘
          fun jd =>
          (st.m_dataflow_availability[
              (st.m_last_assignement_it + 1 + jd.1) % st.m_dataflow_availability.length]?.map
              (fun s => s.make_assignment jd.2),
            (st.m_last_assignement_it + 1 + jd.1) % st.m_dataflow_availability.length)))
        = (List.range ds.length).map
            (fun j => (st.m_last_assignement_it + 1 + j) % st.m_dataflow_availability.length) := by
      rw [← List.enum_map_fst, List.map_map]
      rfl
    rw [hrange]
    exact round_robin_indices_nodup _ _ _ hK
  · rw [hcalls, List.map_map]
    have hrange : (ds.enum.map ((fun (r : Option AssignedTriggerDecision × Nat) =>
            r.1.map (fun a => a.connection_name)) ∘ fun jd =>
          (st.m_dataflow_availability[
              (st.m_last_assignement_it + 1 + jd.1) % st.m_dataflow_availability.length]?.map
              (fun s => s.make_assignment jd.2),
            (st.m_last_assignement_it + 1 + jd.1) % st.m_dataflow_availability.length)))
        = (List.range ds.length).map
            (fun j => (st.m_dataflow_availability.map (fun s => s.m_connection_name))[
              (st.m_last_assignement_it + 1 + j) % st.m_dataflow_availability.length]?) := by
      rw [← List.enum_map_fst, List.map_map]
      apply List.map_congr_left
      intro jd _
      simp only [Function.comp, Option.map_map, List.getElem?_map]
      rfl
    rw [hrange]
    refine List.Nodup.map_on ?_ (List.nodup_range _)
    intro j1 hj1 j2 hj2 h
    rw [List.mem_range] at hj1 hj2
    have hl1 := Nat.mod_lt (st.m_last_assignement_it + 1 + j1) hN
    have hidx := List.getElem?_inj (by rw [List.length_map]; exact hl1) hnames h
    exact round_robin_index_inj _ _ j1 j2 (by omega) (by omega) hidx

/-- C3 (witness). Scenario S1 with the cursor on C (index 2) and three decisions:
the calls return A, B, C in this order, with the cursor on 0, 1, 2. -/
theorem C3_round_robin_fairness_witness :
    find_slot_calls { scenario_S1 with m_last_assignement_it := 2 }
        [{ trigger_number := 1, run_number := 7 }, { trigger_number := 2, run_number := 7 },
          { trigger_number := 3, run_number := 7 }]
      = [(some { decision := { trigger_number := 1, run_number := 7 }, connection_name := "A" }, 0),
          (some { decision := { trigger_number := 2, run_number := 7 }, connection_name := "B" }, 1),
          (some { decision := { trigger_number := 3, run_number := 7 }, connection_name := "C" }, 2)] :=
  (C3_round_robin_fairness { scenario_S1 with m_last_assignement_it := 2 }
    [{ trigger_number := 1, run_number := 7 }, { trigger_number := 2, run_number := 7 },
      { trigger_number := 3, run_number := 7 }]
    (by decide) (by decide) (by decide) (by decide)).1.trans (by decide)

/-! ### C5: run-number isolation -/

/-- C5. A decision or a token whose run number is not the current one leaves the
whole state as it was (every slot, the cursor, the last notified inhibit, every
counter): the callback returns the unchanged state, and its log holds the
run-number-mismatch warning and nothing else, so that no `TriggerDecision` and no
`TriggerInhibit` is sent. -/
theorem C5_run_number_isolation (st : DataFlowOrchestrator) (decision : TriggerDecision)
    (token : TriggerDecisionToken) (fuel elapsed : Nat) (outcomes : List Bool)
    (hdecision : decision.run_number ≠ st.m_run_number)
    (htoken : token.run_number ≠ st.m_run_number) :
    st.receive_trigger_decision decision fuel outcomes
        = some (st, [Event.run_number_mismatch decision.run_number st.m_run_number]) ∧
      st.receive_trigger_complete_token token elapsed outcomes
        = some (st, [Event.run_number_mismatch token.run_number st.m_run_number]) := by
  constructor
  · simp only [DataFlowOrchestrator.receive_trigger_decision, ne_eq, hdecision,
      not_false_eq_true, if_true]
  · simp only [DataFlowOrchestrator.receive_trigger_complete_token, ne_eq, htoken,
      not_false_eq_true, if_true]

/-- C5 (witness). Scenario S1 runs as run 7; a decision and a token of run 4 change
nothing. -/
theorem C5_run_number_isolation_witness :
    scenario_S1.receive_trigger_decision { trigger_number := 1, run_number := 4 } 1 [true, true]
        = some (scenario_S1, [Event.run_number_mismatch 4 7]) ∧
      scenario_S1.receive_trigger_complete_token
          { trigger_number := 1, run_number := 4, decision_destination := "A" } 0 [true]
        = some (scenario_S1, [Event.run_number_mismatch 4 7]) :=
  C5_run_number_isolation scenario_S1 { trigger_number := 1, run_number := 4 }
    { trigger_number := 1, run_number := 4, decision_destination := "A" } 1 0 [true, true]
    (by decide) (by decide)

/-! ### C10: the global busy predicate -/

theorem is_busy_loop_eq_true (registry : List TriggerRecordBuilderData) :
    DataFlowOrchestrator.is_busy_loop registry = true ↔ ∀ s ∈ registry, s.is_busy = true := by
  induction registry with
  | nil => simp [DataFlowOrchestrator.is_busy_loop]
  | cons s rest ih =>
    cases hs : s.is_busy <;> simp [DataFlowOrchestrator.is_busy_loop, hs, ih]

/-- C10. `DataFlowOrchestrator::is_busy()` is true exactly when every entry of the
registry is busy, and false exactly when some entry is not busy; for the empty
registry it is true. -/
theorem C10_global_busy (st : DataFlowOrchestrator) :
    (st.is_busy = true ↔ ∀ s ∈ st.m_dataflow_availability, s.is_busy = true) ∧
      (st.is_busy = false ↔ ∃ s ∈ st.m_dataflow_availability, s.is_busy = false) ∧
      { st with m_dataflow_availability := [] }.is_busy = true := by
  refine ⟨is_busy_loop_eq_true _, ?_, rfl⟩
  rw [← Bool.not_eq_true, DataFlowOrchestrator.is_busy, is_busy_loop_eq_true]
  simp

/-! ### C6: the send loop of `dispatch` -/

theorem to_int32_of_small (n : Nat) (h : n < 2147483648) : to_int32 n = Int.ofNat n := by
  have hmod : n % 4294967296 = n := Nat.mod_eq_of_lt (by omega)
  simp only [to_int32, hmod, h, if_true]

theorem dispatch_loop_running (assignment : AssignedTriggerDecision) (sent : Nat) :
    ∀ (outcomes : List Bool) (retries : Int), max retries.toNat 1 ≤ outcomes.length →
      DataFlowOrchestrator.dispatch_loop true assignment outcomes retries sent =
        if (outcomes.takeWhile (fun b => !b)).length < max retries.toNat 1 then
          some (true, sent + 1,
            List.replicate (outcomes.takeWhile (fun b => !b)).length
                (Event.td_send_failed assignment.connection_name assignment.decision)
              ++ [Event.td_sent assignment.connection_name assignment.decision],
            outcomes.drop ((outcomes.takeWhile (fun b => !b)).length + 1))
        else
          some (false, sent,
            List.replicate (max retries.toNat 1)
              (Event.td_send_failed assignment.connection_name assignment.decision),
            outcomes.drop (max retries.toNat 1)) := by
  intro outcomes
  induction outcomes with
  | nil =>
    intro retries hlen
    simp only [List.length_nil] at hlen
    omega
  | cons b rest ih =>
    intro retries hlen
    cases b with
    | true =>
      have hpos : 0 < max retries.toNat 1 := by omega
      simp [DataFlowOrchestrator.dispatch_loop, hpos]
    | false =>
      simp only [List.length_cons] at hlen
      by_cases hn : 2 ≤ retries
      · have hgt : (retries - 1 > 0) := by omega
        have hmax : max retries.toNat 1 = max (retries - 1).toNat 1 + 1 := by omega
        have hih := ih (retries - 1) (by omega)
        have htake : ((false :: rest).takeWhile (fun b => !b)).length
            = (rest.takeWhile (fun b => !b)).length + 1 := by
          simp [List.takeWhile_cons]
        simp only [DataFlowOrchestrator.dispatch_loop, Bool.true_and, hgt, decide_True, if_true]
        rw [hih, htake, hmax]
        by_cases hk : (rest.takeWhile (fun b => !b)).length < max (retries - 1).toNat 1
        · rw [if_pos hk, if_pos (by omega)]
          simp [List.replicate_succ]
        · rw [if_neg hk, if_neg (by omega)]
          simp [List.replicate_succ]
      · have hle : ¬ (retries - 1 > 0) := by omega
        have hmax : max retries.toNat 1 = 1 := by omega
        simp only [DataFlowOrchestrator.dispatch_loop, Bool.true_and, hle, decide_False,
          Bool.false_eq_true, if_false, hmax]
        simp

theorem send_attempts_replicate_failed (name : String) (d : TriggerDecision) (k : Nat) :
    send_attempts (List.replicate k (Event.td_send_failed name d)) = k := by
  induction k with
  | zero => rfl
  | succ k ih => simp [List.replicate_succ, send_attempts, ih]

theorem send_attempts_replicate_failed_sent (name : String) (d : TriggerDecision) (k : Nat) :
    send_attempts (List.replicate k (Event.td_send_failed name d) ++ [Event.td_sent name d])
      = k + 1 := by
  induction k with
  | zero => rfl
  | succ k ih => simp [List.replicate_succ, send_attempts, ih]

/-- C6 (counterexample). With `td_send_retries = 0` configured, `dispatch` still makes
one send attempt, more than the budget of 0: it returns true and counts the
decision when that attempt succeeds, and false when it fails. And with
`td_send_retries = 4294967295` configured, `int retries` holds -1: after one failed
attempt `dispatch` returns false, with the budget far from exhausted and the next
attempt bound to succeed. -/
theorem C6_zero_budget_counterexample :
    { scenario_single with m_td_send_retries := 0 }.m_td_send_retries = 0 ∧
    ({ scenario_single with m_td_send_retries := 0 }.dispatch
        { decision := { trigger_number := 1, run_number := 7 }, connection_name := "A" }
        [true]).map
        (fun (r : Bool × DataFlowOrchestrator × List Event × List Bool) =>
          (r.1, r.2.1.m_sent_decisions, send_attempts r.2.2.1))
      = some (true, 1, 1) ∧
    ({ scenario_single with m_td_send_retries := 0 }.dispatch
        { decision := { trigger_number := 1, run_number := 7 }, connection_name := "A" }
        [false]).map
        (fun (r : Bool × DataFlowOrchestrator × List Event × List Bool) =>
          (r.1, r.2.1.m_sent_decisions, send_attempts r.2.2.1))
      = some (false, 0, 1) ∧
    to_int32 4294967295 = -1 ∧
    ({ scenario_single with m_td_send_retries := 4294967295 }.dispatch
        { decision := { trigger_number := 1, run_number := 7 }, connection_name := "A" }
        [false, true]).map
        (fun (r : Bool × DataFlowOrchestrator × List Event × List Bool) =>
          (r.1, r.2.1.m_sent_decisions, send_attempts r.2.2.1, r.2.2.2))
      = some (false, 0, 1, [true]) := by
  decide

/-- C6 (amended). Let r be the value that `int retries = m_td_send_retries` holds for
the configured `td_send_retries = n`: r = n whenever n < 2^31, and the value modulo
2^32 in two's complement otherwise (the least `int`, whose decrement the source
leaves undefined, is excluded). With the running flag up and the transport
answering every attempt, `dispatch` makes at least one and at most max(r, 1) send
attempts. Let k be the number of failed sends before the first success. If
k < max(r, 1), it stops at that success after k + 1 attempts and returns true with
`m_sent_decisions` incremented by exactly 1; otherwise it makes max(r, 1) attempts,
all failed, and returns false with `m_sent_decisions` unchanged. -/
theorem C6_send_retry_budget (st : DataFlowOrchestrator) (assignment : AssignedTriggerDecision)
    (outcomes : List Bool)
    (hrunning : st.m_running_status = true)
    (_hdefined : to_int32 st.m_td_send_retries ≠ -2147483648)
    (hanswered : max (to_int32 st.m_td_send_retries).toNat 1 ≤ outcomes.length) :
    (st.m_td_send_retries < 2147483648 →
        max (to_int32 st.m_td_send_retries).toNat 1 = max st.m_td_send_retries 1) ∧
    (st.dispatch assignment outcomes =
        if (outcomes.takeWhile (fun b => !b)).length
            < max (to_int32 st.m_td_send_retries).toNat 1 then
          some (true, { st with m_sent_decisions := st.m_sent_decisions + 1 },
            List.replicate (outcomes.takeWhile (fun b => !b)).length
                (Event.td_send_failed assignment.connection_name assignment.decision)
              ++ [Event.td_sent assignment.connection_name assignment.decision],
            outcomes.drop ((outcomes.takeWhile (fun b => !b)).length + 1))
        else
          some (false, st,
            List.replicate (max (to_int32 st.m_td_send_retries).toNat 1)
              (Event.td_send_failed assignment.connection_name assignment.decision),
            outcomes.drop (max (to_int32 st.m_td_send_retries).toNat 1))) ∧
      ∃ ok st1 log rest, st.dispatch assignment outcomes = some (ok, st1, log, rest) ∧
        1 ≤ send_attempts log ∧
        send_attempts log ≤ max (to_int32 st.m_td_send_retries).toNat 1 ∧
        (ok = true → st1.m_sent_decisions = st.m_sent_decisions + 1) ∧
        (ok = false → st1.m_sent_decisions = st.m_sent_decisions ∧
          send_attempts log = max (to_int32 st.m_td_send_retries).toNat 1) := by
  have hloop := dispatch_loop_running assignment st.m_sent_decisions outcomes
    (to_int32 st.m_td_send_retries) hanswered
  have hflag : DataFlowOrchestrator.dispatch_loop st.m_running_status assignment outcomes
      (to_int32 st.m_td_send_retries) st.m_sent_decisions
      = DataFlowOrchestrator.dispatch_loop true assignment outcomes
          (to_int32 st.m_td_send_retries) st.m_sent_decisions := by rw [hrunning]
  have heq : st.dispatch assignment outcomes =
        if (outcomes.takeWhile (fun b => !b)).length
            < max (to_int32 st.m_td_send_retries).toNat 1 then
          some (true, { st with m_sent_decisions := st.m_sent_decisions + 1 },
            List.replicate (outcomes.takeWhile (fun b => !b)).length
                (Event.td_send_failed assignment.connection_name assignment.decision)
              ++ [Event.td_sent assignment.connection_name assignment.decision],
            outcomes.drop ((outcomes.takeWhile (fun b => !b)).length + 1))
        else
          some (false, st,
            List.replicate (max (to_int32 st.m_td_send_retries).toNat 1)
              (Event.td_send_failed assignment.connection_name assignment.decision),
            outcomes.drop (max (to_int32 st.m_td_send_retries).toNat 1)) := by
    by_cases hk : (outcomes.takeWhile (fun b => !b)).length
        < max (to_int32 st.m_td_send_retries).toNat 1
    · rw [if_pos hk] at hloop ⊢
      simp only [DataFlowOrchestrator.dispatch, hflag, hloop]
    · rw [if_neg hk] at hloop ⊢
      simp only [DataFlowOrchestrator.dispatch, hflag, hloop]
  refine ⟨?_, heq, ?_⟩
  · intro hsmall
    rw [to_int32_of_small _ hsmall]
    rfl
  rw [heq]
  by_cases hk : (outcomes.takeWhile (fun b => !b)).length
      < max (to_int32 st.m_td_send_retries).toNat 1
  · rw [if_pos hk]
    refine ⟨_, _, _, _, rfl, ?_, ?_, ?_, ?_⟩
    · rw [send_attempts_replicate_failed_sent]; omega
    · rw [send_attempts_replicate_failed_sent]; omega
    · intro _; rfl
    · intro h; cases h
  · rw [if_neg hk]
    refine ⟨_, _, _, _, rfl, ?_, ?_, ?_, ?_⟩
    · rw [send_attempts_replicate_failed]; omega
    · rw [send_attempts_replicate_failed]
    · intro h; cases h
    · intro _; exact ⟨rfl, send_attempts_replicate_failed _ _ _⟩

/-- C6 (witness). Scenario S1 has a budget of 3: with the sends failing twice and
then succeeding, `dispatch` makes three attempts and returns true; the fourth
outcome is not consumed. -/
theorem C6_send_retry_budget_witness :
    scenario_S1.dispatch
        { decision := { trigger_number := 1, run_number := 7 }, connection_name := "B" }
        [false, false, true, true]
      = some (true, { scenario_S1 with m_sent_decisions := 1 },
          [Event.td_send_failed "B" { trigger_number := 1, run_number := 7 },
            Event.td_send_failed "B" { trigger_number := 1, run_number := 7 },
            Event.td_sent "B" { trigger_number := 1, run_number := 7 }],
          [true]) :=
  (C6_send_retry_budget scenario_S1
    { decision := { trigger_number := 1, run_number := 7 }, connection_name := "B" }
    [false, false, true, true] (by decide) (by decide) (by decide)).2.1.trans (by decide)

/-! ### C7: the poll of `do_stop` -/

theorem stop_poll_not_empty (st : DataFlowOrchestrator) (wait_steps step_counter : Nat)
    (hne : st.is_empty = false) (hsteps : step_counter < wait_steps) :
    ∀ fuel, DataFlowOrchestrator.stop_poll st wait_steps fuel step_counter = none := by
  intro fuel
  induction fuel with
  | zero => rfl
  | succ fuel ih =>
    simp only [DataFlowOrchestrator.stop_poll, hne, Bool.not_false, Bool.true_and, hsteps,
      decide_True, if_true, ih]

/-- C7 (the code at the failing input). The body of the polling loop of `do_stop`
is the sleep alone: `step_counter` stays 0 and the test `step_counter < wait_steps`
never fails. In every state in which some slot has an outstanding assignment, with
no token arriving, the loop is still running after any number of evaluations of its
test, and `do_stop` never reaches the removal of the token callback and the drain.
(When every slot is empty, the loop ends at its first test without a sleep, and
`do_stop` goes on to the drain.) -/
theorem C7_stop_poll_never_ends (st : DataFlowOrchestrator) (hne : st.is_empty = false) :
    (∀ fuel, DataFlowOrchestrator.stop_poll st.do_stop_begin 20 fuel 0 = none ∧
      st.do_stop fuel = none) ∧
    (∀ (st0 : DataFlowOrchestrator) (fuel : Nat), st0.is_empty = true →
      DataFlowOrchestrator.stop_poll st0.do_stop_begin 20 (fuel + 1) 0 = some 0 ∧
      st0.do_stop (fuel + 1)
        = some ({ st0.do_stop_begin with token_callback_bound := false }.stop_drain)) := by
  constructor
  · intro fuel
    have hpoll := stop_poll_not_empty st.do_stop_begin 20 0 hne (by decide) fuel
    exact ⟨hpoll,
      by simp only [DataFlowOrchestrator.do_stop, DataFlowOrchestrator.do_stop_end, hpoll]⟩
  · intro st0 fuel hempty
    have hempty1 : st0.do_stop_begin.is_empty = true := hempty
    have hpoll : DataFlowOrchestrator.stop_poll st0.do_stop_begin 20 (fuel + 1) 0 = some 0 := by
      simp only [DataFlowOrchestrator.stop_poll, hempty1, Bool.not_true, Bool.false_and,
        Bool.false_eq_true, if_false]
    exact ⟨hpoll,
      by simp only [DataFlowOrchestrator.do_stop, DataFlowOrchestrator.do_stop_end, hpoll]⟩

/-- C7 (witness). With decision 1 outstanding at A, `do_stop` has no result after a
thousand evaluations of the loop test, far more than the 20 sleeps of the claim. -/
theorem C7_stop_poll_never_ends_witness :
    DataFlowOrchestrator.stop_poll scenario_outstanding.do_stop_begin 20 1000 0 = none ∧
      scenario_outstanding.do_stop 1000 = none :=
  (C7_stop_poll_never_ends scenario_outstanding (by decide)).1 1000

/-! ### C8: the drain of `do_stop` -/

theorem update_slot_of_find (name : String)
    (f : TriggerRecordBuilderData → TriggerRecordBuilderData) (app : TriggerRecordBuilderData) :
    ∀ (registry : List TriggerRecordBuilderData),
      registry.find? (fun s => decide (s.m_connection_name = name)) = some app →
      update_slot name (fun _ => f app) registry = update_slot name f registry := by
  intro registry
  induction registry with
  | nil => intro h; cases h
  | cons s rest ih =>
    intro h
    by_cases hs : s.m_connection_name = name
    · simp only [List.find?_cons, hs, decide_True, Option.some.injEq] at h
      subst h
      simp only [update_slot, hs, if_true]
    · simp only [List.find?_cons, hs, decide_False] at h
      simp only [update_slot, hs, if_false, ih h]

theorem update_slot_id (name : String) (registry : List TriggerRecordBuilderData) :
    update_slot name (fun s => s) registry = registry := by
  induction registry with
  | nil => rfl
  | cons s rest ih =>
    simp only [update_slot, ih]
    split <;> rfl

theorem update_slot_map {β : Type} (name : String)
    (f : TriggerRecordBuilderData → TriggerRecordBuilderData) (g : TriggerRecordBuilderData → β)
    (hg : ∀ s, g (f s) = g s) (registry : List TriggerRecordBuilderData) :
    (update_slot name f registry).map g = registry.map g := by
  induction registry with
  | nil => rfl
  | cons s rest ih =>
    simp only [update_slot]
    split
    · simp only [List.map_cons, hg]
    · simp only [List.map_cons, ih]

theorem notify_trigger_frame (st st1 : DataFlowOrchestrator) (busy : Bool)
    (outcomes rest : List Bool) (log : List Event)
    (h : st.notify_trigger busy outcomes = some (st1, log, rest)) :
    st1 = { st with m_last_notified_busy := st1.m_last_notified_busy } := by
  simp only [DataFlowOrchestrator.notify_trigger] at h
  split at h
  · simp only [Option.some.injEq, Prod.mk.injEq] at h
    rw [← h.1]
  · split at h
    · cases h
    · simp only [Option.some.injEq, Prod.mk.injEq] at h
      rw [← h.1]

theorem complete_assignment_stale (app : TriggerRecordBuilderData) (trigger_number : Nat)
    (hstale : ∀ a ∈ app.m_assigned_trigger_decisions,
      a.decision.trigger_number ≠ trigger_number) :
    app.complete_assignment trigger_number = none := by
  have hfind : app.m_assigned_trigger_decisions.find?
      (fun a => decide (a.decision.trigger_number = trigger_number)) = none := by
    rw [List.find?_eq_none]
    intro a ha
    simpa using hstale a ha
  simp only [TriggerRecordBuilderData.complete_assignment, hfind]

theorem stale_token_result (st : DataFlowOrchestrator) (token : TriggerDecisionToken)
    (elapsed : Nat) (outcomes : List Bool) (app : TriggerRecordBuilderData)
    (hrun : token.run_number = st.m_run_number)
    (hfind : st.m_dataflow_availability.find?
      (fun s => decide (s.m_connection_name = token.decision_destination)) = some app)
    (hstale : ∀ a ∈ app.m_assigned_trigger_decisions,
      a.decision.trigger_number ≠ token.trigger_number) :
    st.receive_trigger_complete_token token elapsed outcomes =
      if app.is_busy then
        some ({ st with
            m_received_tokens := st.m_received_tokens + 1
            m_dataflow_availability :=
              update_slot token.decision_destination (fun s => s.set_in_error false)
                st.m_dataflow_availability },
          Event.assigned_trigger_decision_not_found token.trigger_number app.m_connection_name ::
            (if app.is_in_error then [Event.has_reconnected token.decision_destination] else []))
      else
        (DataFlowOrchestrator.notify_trigger { st with
            m_received_tokens := st.m_received_tokens + 1
            m_dataflow_availability :=
              update_slot token.decision_destination (fun s => s.set_in_error false)
                st.m_dataflow_availability } false outcomes).map
          (fun r => (r.1,
            Event.assigned_trigger_decision_not_found token.trigger_number app.m_connection_name ::
              (if app.is_in_error then [Event.has_reconnected token.decision_destination] else [])
              ++ r.2.1)) := by
  have hnone := complete_assignment_stale app token.trigger_number hstale
  have hupd : update_slot token.decision_destination (fun _ => app.set_in_error false)
        st.m_dataflow_availability
      = update_slot token.decision_destination (fun s => s.set_in_error false)
          st.m_dataflow_availability :=
    update_slot_of_find token.decision_destination
      (fun s => s.set_in_error false) app st.m_dataflow_availability hfind
  simp only [DataFlowOrchestrator.receive_trigger_complete_token, ne_eq, hrun, not_true_eq_false,
    if_false, hfind, hnone]
  cases herr : app.m_in_error
  · have hsame : app.set_in_error false = app := by
      cases app
      simp only [TriggerRecordBuilderData.set_in_error] at herr ⊢
      rw [herr]
    rw [hsame] at hupd
    simp only [TriggerRecordBuilderData.is_in_error, herr, Bool.false_eq_true, if_false,
      hupd, List.append_nil]
    cases hbusy : app.is_busy
    · simp only [Bool.not_false, if_true, Bool.false_eq_true, if_false]
      cases hn : DataFlowOrchestrator.notify_trigger _ false outcomes with
      | none => rfl
      | some r => rfl
    · simp
  · simp only [TriggerRecordBuilderData.is_in_error, herr, if_true, hupd]
    have hb : (app.set_in_error false).is_busy = app.is_busy := rfl
    rw [hb]
    cases hbusy : app.is_busy
    · simp only [Bool.not_false, if_true, Bool.false_eq_true, if_false]
      cases hn : DataFlowOrchestrator.notify_trigger _ false outcomes with
      | none => rfl
      | some r => rfl
    · simp

/-- C9 (counterexample). Destination A is in error and has nothing outstanding; a
token of the current run for A with trigger number 5 is stale
(`complete_assignment` fails), and yet the callback goes on to clear the error flag
of A: the slot is not left unchanged. -/
theorem C9_stale_token_counterexample :
    scenario_in_error.m_dataflow_availability.map
        (fun s => (s.m_connection_name, s.m_assigned_trigger_decisions, s.m_in_error))
      = [("A", [], true)] ∧
    scenario_in_error.receive_trigger_complete_token
        { trigger_number := 5, run_number := 7, decision_destination := "A" } 0 []
      = some ({ scenario_in_error with
            m_received_tokens := 1
            m_dataflow_availability := [TriggerRecordBuilderData.create "A" 1 0] },
          [Event.assigned_trigger_decision_not_found 5 "A", Event.has_reconnected "A"]) := by
  decide

/-- C9 (amended). For a token of the current run that names a registered destination
and whose trigger number is not among the outstanding assignments of that slot,
`receive_trigger_complete_token` returns at once when the slot is busy or false is
the stored last-notified value (otherwise as soon as `notify_trigger(false)` does),
and whenever it returns: it has reported `AssignedTriggerDecisionNotFound`, the
outstanding assignments, the busy flag, the thresholds and the name of every slot
are unchanged, the completed-record counters and the waiting-time accumulators
(`m_app_infos`) are untouched, the error flag of the named slot is cleared (false
afterwards, whatever it was), and the token is counted in `m_received_tokens`. -/
theorem C9_stale_token_frame (st : DataFlowOrchestrator) (token : TriggerDecisionToken)
    (elapsed : Nat) (outcomes : List Bool) (app : TriggerRecordBuilderData)
    (hrun : token.run_number = st.m_run_number)
    (hfind : st.m_dataflow_availability.find?
      (fun s => decide (s.m_connection_name = token.decision_destination)) = some app)
    (hstale : ∀ a ∈ app.m_assigned_trigger_decisions,
      a.decision.trigger_number ≠ token.trigger_number) :
    (app.is_busy = true ∨ st.m_last_notified_busy = false →
        (st.receive_trigger_complete_token token elapsed outcomes).isSome = true) ∧
    ∀ (st1 : DataFlowOrchestrator) (log : List Event),
      st.receive_trigger_complete_token token elapsed outcomes = some (st1, log) →
      st1.m_dataflow_availability
          = update_slot token.decision_destination (fun s => s.set_in_error false)
              st.m_dataflow_availability ∧
        st1.m_dataflow_availability.map
            (fun s => (s.m_connection_name, s.m_busy_threshold, s.m_free_threshold,
              s.m_assigned_trigger_decisions, s.m_is_busy))
          = st.m_dataflow_availability.map
            (fun s => (s.m_connection_name, s.m_busy_threshold, s.m_free_threshold,
              s.m_assigned_trigger_decisions, s.m_is_busy)) ∧
        st1.m_app_infos = st.m_app_infos ∧
        st1.m_received_tokens = st.m_received_tokens + 1 ∧
        log.head? = some (Event.assigned_trigger_decision_not_found token.trigger_number
          app.m_connection_name) := by
  have hshape := stale_token_result st token elapsed outcomes app hrun hfind hstale
  have hregistry : ∀ registry : List TriggerRecordBuilderData,
      (update_slot token.decision_destination (fun s => s.set_in_error false) registry).map
          (fun s => (s.m_connection_name, s.m_busy_threshold, s.m_free_threshold,
            s.m_assigned_trigger_decisions, s.m_is_busy))
        = registry.map
          (fun s => (s.m_connection_name, s.m_busy_threshold, s.m_free_threshold,
            s.m_assigned_trigger_decisions, s.m_is_busy)) :=
    fun registry => update_slot_map token.decision_destination
      (fun s => s.set_in_error false)
      (fun s => (s.m_connection_name, s.m_busy_threshold, s.m_free_threshold,
        s.m_assigned_trigger_decisions, s.m_is_busy))
      (fun _ => rfl) registry
  constructor
  · intro hquiet
    rw [hshape]
    cases hbusy : app.is_busy
    · rcases hquiet with hb | hlast
      · rw [hbusy] at hb; cases hb
      · simp only [Bool.false_eq_true, if_false, DataFlowOrchestrator.notify_trigger, hlast,
          if_true, Option.map_some', Option.isSome_some]
    · simp only [if_true, Option.isSome_some]
  · intro st1 log hresult
    rw [hresult] at hshape
    cases hbusy : app.is_busy
    · rw [hbusy] at hshape
      simp only [Bool.false_eq_true, if_false] at hshape
      cases hn : DataFlowOrchestrator.notify_trigger { st with
              m_received_tokens := st.m_received_tokens + 1
              m_dataflow_availability :=
                update_slot token.decision_destination (fun s => s.set_in_error false)
                  st.m_dataflow_availability } false outcomes with
      | none =>
        rw [hn] at hshape
        cases hshape
      | some r =>
        obtain ⟨st2, log2, rest⟩ := r
        rw [hn] at hshape
        simp only [Option.map_some', Option.some.injEq, Prod.mk.injEq] at hshape
        obtain ⟨hst, hlog⟩ := hshape
        have hframe := notify_trigger_frame _ _ _ _ _ _ hn
        subst hst
        rw [hframe, hlog]
        exact ⟨rfl, hregistry _, rfl, rfl, rfl⟩
    · rw [hbusy] at hshape
      simp only [if_true, Option.some.injEq, Prod.mk.injEq] at hshape
      obtain ⟨hst, hlog⟩ := hshape
      rw [hst, hlog]
      exact ⟨rfl, hregistry _, rfl, rfl, rfl⟩

/-- C9 (witness). In scenario S6 (decisions 1 and 3 outstanding at A, decision 2 at
B) a token for A with trigger number 9 is stale: the registry, and with it every
outstanding set and busy flag, is what it was, no completion is recorded, and the
token is counted. -/
theorem C9_stale_token_frame_witness :
    scenario_S6.receive_trigger_complete_token
        { trigger_number := 9, run_number := 7, decision_destination := "A" } 0 []
      = some ({ scenario_S6 with m_received_tokens := 1 },
          [Event.assigned_trigger_decision_not_found 9 "A"]) ∧
    ({ scenario_S6 with m_received_tokens := 1 } : DataFlowOrchestrator).m_dataflow_availability
      = update_slot "A" (fun s => s.set_in_error false) scenario_S6.m_dataflow_availability ∧
    ({ scenario_S6 with m_received_tokens := 1 } : DataFlowOrchestrator).m_app_infos
      = scenario_S6.m_app_infos :=
  have h := (C9_stale_token_frame scenario_S6
    { trigger_number := 9, run_number := 7, decision_destination := "A" } 0 []
    (((TriggerRecordBuilderData.create "A" 3 1).add_assignment
          { decision := { trigger_number := 1, run_number := 7 }, connection_name := "A" }).add_assignment
          { decision := { trigger_number := 3, run_number := 7 }, connection_name := "A" })
    (by decide) (by decide) (by decide)).2
    { scenario_S6 with m_received_tokens := 1 }
    [Event.assigned_trigger_decision_not_found 9 "A"]
    (by decide)
  ⟨by decide, h.1, h.2.2.1⟩

/-! ### C4: the inhibit is sent on changes only -/

theorem emitted_append (l1 l2 : List Event) : emitted (l1 ++ l2) = emitted l1 ++ emitted l2 := by
  induction l1 with
  | nil => rfl
  | cons e rest ih =>
    cases e <;> simp [emitted, ih]

theorem emitted_of_no_inhibit (log : List Event) (h : ∀ e ∈ log, is_inhibit e = false) :
    emitted log = [] := by
  induction log with
  | nil => rfl
  | cons e rest ih =>
    have he := h e (List.mem_cons_self _ _)
    have hrest := ih (fun x hx => h x (List.mem_cons_of_mem _ hx))
    cases e <;> simp_all [emitted, is_inhibit]

theorem abandoned_of_no_inhibit (log : List Event) (h : ∀ e ∈ log, is_inhibit e = false) :
    abandoned log = false := by
  unfold abandoned
  split
  · next message hlast =>
    have hmem : Event.inhibit_send_failed message ∈ log := List.mem_of_getLast?_eq_some hlast
    have := h _ hmem
    simp [is_inhibit] at this
  · rfl

theorem abandoned_append (l1 l2 : List Event) (h : l2 ≠ []) :
    abandoned (l1 ++ l2) = abandoned l2 := by
  unfold abandoned
  rw [List.getLast?_append_of_ne_nil l1 h]

theorem notify_trigger_loop_log (running : Bool) (message : TriggerInhibit) :
    ∀ (outcomes rest : List Bool) (log : List Event),
      DataFlowOrchestrator.notify_trigger_loop running message outcomes = some (log, rest) →
      log ≠ [] ∧
        ((emitted log = [message.busy] ∧ abandoned log = false) ∨
          (emitted log = [] ∧ abandoned log = true)) := by
  intro outcomes
  induction outcomes with
  | nil => intro rest log h; cases h
  | cons b outs ih =>
    intro rest log h
    cases b with
    | true =>
      simp only [DataFlowOrchestrator.notify_trigger_loop, Option.some.injEq, Prod.mk.injEq] at h
      rw [← h.1]
      exact ⟨by simp, Or.inl ⟨rfl, rfl⟩⟩
    | false =>
      cases running with
      | true =>
        simp only [DataFlowOrchestrator.notify_trigger_loop, if_true] at h
        cases hrec : DataFlowOrchestrator.notify_trigger_loop true message outs with
        | none => rw [hrec] at h; cases h
        | some r =>
          obtain ⟨log1, rest1⟩ := r
          rw [hrec] at h
          simp only [Option.some.injEq, Prod.mk.injEq] at h
          obtain ⟨hne, hcases⟩ := ih rest1 log1 hrec
          rw [← h.1]
          have hab : abandoned (Event.inhibit_send_failed message :: log1) = abandoned log1 :=
            abandoned_append [Event.inhibit_send_failed message] log1 hne
          refine ⟨by simp, ?_⟩
          rw [hab]
          simpa [emitted] using hcases
      | false =>
        simp only [DataFlowOrchestrator.notify_trigger_loop, Bool.false_eq_true, if_false,
          Option.some.injEq, Prod.mk.injEq] at h
        rw [← h.1]
        exact ⟨by simp, Or.inr ⟨rfl, rfl⟩⟩

theorem notify_trigger_log (st st1 : DataFlowOrchestrator) (busy : Bool)
    (outcomes rest : List Bool) (log : List Event)
    (h : st.notify_trigger busy outcomes = some (st1, log, rest)) :
    (log = [] ∧ st1.m_last_notified_busy = st.m_last_notified_busy) ∨
      (log ≠ [] ∧ emitted log = [!st.m_last_notified_busy] ∧ abandoned log = false ∧
        st1.m_last_notified_busy = !st.m_last_notified_busy) ∨
      (log ≠ [] ∧ abandoned log = true) := by
  simp only [DataFlowOrchestrator.notify_trigger] at h
  split at h
  · simp only [Option.some.injEq, Prod.mk.injEq] at h
    exact Or.inl ⟨h.2.1.symm, by rw [← h.1]⟩
  · next hne =>
    cases hloop : DataFlowOrchestrator.notify_trigger_loop st.m_running_status
        { busy := busy, run_number := st.m_run_number } outcomes with
    | none => rw [hloop] at h; cases h
    | some r =>
      obtain ⟨log1, rest1⟩ := r
      rw [hloop] at h
      simp only [Option.some.injEq, Prod.mk.injEq] at h
      obtain ⟨hnil, hcases⟩ := notify_trigger_loop_log _ _ _ _ _ hloop
      have hbusy : busy = !st.m_last_notified_busy := by
        cases busy <;> cases hl : st.m_last_notified_busy <;> simp_all
      rw [← h.2.1, ← h.1]
      rcases hcases with ⟨hem, hab⟩ | ⟨_, hab⟩
      · exact Or.inr (Or.inl ⟨hnil, by rw [hem, hbusy], hab, hbusy⟩)
      · exact Or.inr (Or.inr ⟨hnil, hab⟩)

theorem find_slot_last_notified (st : DataFlowOrchestrator) (d : TriggerDecision) :
    (st.find_slot d).2.m_last_notified_busy = st.m_last_notified_busy := by
  simp only [DataFlowOrchestrator.find_slot]
  split <;> rfl

theorem dispatch_loop_no_inhibit (running : Bool) (assignment : AssignedTriggerDecision) :
    ∀ (outcomes : List Bool) (retries : Int) (sent : Nat) (ok : Bool) (sent1 : Nat)
      (log : List Event) (rest : List Bool),
      DataFlowOrchestrator.dispatch_loop running assignment outcomes retries sent
        = some (ok, sent1, log, rest) →
      ∀ e ∈ log, is_inhibit e = false := by
  intro outcomes
  induction outcomes with
  | nil => intro retries sent ok sent1 log rest h; cases h
  | cons b outs ih =>
    intro retries sent ok sent1 log rest h
    cases b with
    | true =>
      simp only [DataFlowOrchestrator.dispatch_loop, Option.some.injEq, Prod.mk.injEq] at h
      rw [← h.2.2.1]
      intro e he
      simp only [List.mem_singleton] at he
      rw [he]; rfl
    | false =>
      simp only [DataFlowOrchestrator.dispatch_loop] at h
      split at h
      · cases hrec : DataFlowOrchestrator.dispatch_loop running assignment outs (retries - 1) sent with
        | none => rw [hrec] at h; cases h
        | some r =>
          obtain ⟨ok1, sent2, log1, rest1⟩ := r
          rw [hrec] at h
          simp only [Option.some.injEq, Prod.mk.injEq] at h
          rw [← h.2.2.1]
          intro e he
          rcases List.mem_cons.mp he with rfl | he
          · rfl
          · exact ih _ _ _ _ _ _ hrec e he
      · simp only [Option.some.injEq, Prod.mk.injEq] at h
        rw [← h.2.2.1]
        intro e he
        simp only [List.mem_singleton] at he
        rw [he]; rfl

theorem dispatch_last_notified (st st1 : DataFlowOrchestrator)
    (assignment : AssignedTriggerDecision) (outcomes rest : List Bool) (ok : Bool)
    (log : List Event)
    (h : st.dispatch assignment outcomes = some (ok, st1, log, rest)) :
    st1.m_last_notified_busy = st.m_last_notified_busy ∧ ∀ e ∈ log, is_inhibit e = false := by
  simp only [DataFlowOrchestrator.dispatch] at h
  cases hloop : DataFlowOrchestrator.dispatch_loop st.m_running_status assignment outcomes
      (to_int32 st.m_td_send_retries) st.m_sent_decisions with
  | none => rw [hloop] at h; cases h
  | some r =>
    obtain ⟨ok1, sent1, log1, rest1⟩ := r
    rw [hloop] at h
    simp only [Option.some.injEq, Prod.mk.injEq] at h
    refine ⟨by rw [← h.2.1], ?_⟩
    rw [← h.2.2.1]
    exact dispatch_loop_no_inhibit _ _ _ _ _ _ _ _ _ hloop

theorem decision_loop_last_notified (decision : TriggerDecision) :
    ∀ (fuel : Nat) (st st1 : DataFlowOrchestrator) (outcomes rest : List Bool)
      (log : List Event),
      DataFlowOrchestrator.decision_loop decision fuel st outcomes = some (st1, log, rest) →
      st1.m_last_notified_busy = st.m_last_notified_busy ∧
        ∀ e ∈ log, is_inhibit e = false := by
  intro fuel
  induction fuel with
  | zero => intro st st1 outcomes rest log h; cases h
  | succ fuel ih =>
    intro st st1 outcomes rest log h
    have hfind := find_slot_last_notified st decision
    cases hfs : st.find_slot decision with
    | mk output stf =>
      rw [hfs] at hfind
      simp only at hfind
      cases output with
      | none =>
        simp only [DataFlowOrchestrator.decision_loop, hfs] at h
        split at h
        · obtain ⟨h1, h2⟩ := ih _ _ _ _ _ h
          exact ⟨h1.trans hfind, h2⟩
        · simp only [Option.some.injEq, Prod.mk.injEq] at h
          rw [← h.1, ← h.2.1]
          exact ⟨hfind, fun e he => by cases he⟩
      | some assignment =>
        simp only [DataFlowOrchestrator.decision_loop, hfs] at h
        cases hd : stf.dispatch assignment outcomes with
        | none => rw [hd] at h; cases h
        | some r =>
          obtain ⟨ok, std, logd, restd⟩ := r
          obtain ⟨hlast, hlog⟩ := dispatch_last_notified _ _ _ _ _ _ _ hd
          rw [hd] at h
          cases ok with
          | true =>
            simp only [Option.some.injEq, Prod.mk.injEq] at h
            rw [← h.1, ← h.2.1]
            exact ⟨hlast.trans hfind, hlog⟩
          | false =>
            simp only at h
            have hlog1 : ∀ e ∈ logd ++ [Event.could_not_send assignment.connection_name],
                is_inhibit e = false := by
              intro e he
              rcases List.mem_append.mp he with he | he
              · exact hlog e he
              · simp only [List.mem_singleton] at he
                rw [he]; rfl
            split at h
            · cases hrec : DataFlowOrchestrator.decision_loop decision fuel
                  { std with
                    m_dataflow_availability :=
                      update_slot assignment.connection_name (fun s => s.set_in_error true)
                        std.m_dataflow_availability } restd with
              | none => rw [hrec] at h; cases h
              | some r2 =>
                obtain ⟨st4, log2, rest2⟩ := r2
                rw [hrec] at h
                simp only [Option.some.injEq, Prod.mk.injEq] at h
                obtain ⟨h1, h2⟩ := ih _ _ _ _ _ hrec
                rw [← h.1, ← h.2.1]
                refine ⟨h1.trans (hlast.trans hfind), ?_⟩
                intro e he
                rcases List.mem_append.mp he with he | he
                · exact hlog1 e he
                · exact h2 e he
            · simp only [Option.some.injEq, Prod.mk.injEq] at h
              rw [← h.1, ← h.2.1]
              exact ⟨hlast.trans hfind, hlog1⟩

theorem after_prefix_log (previous : Bool) (st2 st3 : DataFlowOrchestrator)
    (log log1 : List Event) (busy : Bool) (outcomes rest : List Bool)
    (hlast : st2.m_last_notified_busy = previous)
    (hlog : ∀ e ∈ log, is_inhibit e = false)
    (hnotify : st2.notify_trigger busy outcomes = some (st3, log1, rest))
    (hsent : abandoned (log ++ log1) = false) :
    (emitted (log ++ log1) = [] ∧ st3.m_last_notified_busy = previous) ∨
      (emitted (log ++ log1) = [!previous] ∧ st3.m_last_notified_busy = !previous) := by
  rw [emitted_append, emitted_of_no_inhibit log hlog, List.nil_append]
  rcases notify_trigger_log _ _ _ _ _ _ hnotify with ⟨hnil, hsame⟩ | ⟨_, hem, _, hnew⟩ | ⟨hne, hab⟩
  · rw [hnil]
    exact Or.inl ⟨rfl, hsame.trans hlast⟩
  · rw [hlast] at hem hnew
    exact Or.inr ⟨hem, hnew⟩
  · rw [abandoned_append log log1 hne, hab] at hsent
    cases hsent

theorem receive_trigger_decision_log (st st1 : DataFlowOrchestrator) (decision : TriggerDecision)
    (fuel : Nat) (outcomes : List Bool) (log : List Event)
    (h : st.receive_trigger_decision decision fuel outcomes = some (st1, log))
    (hsent : abandoned log = false) :
    (emitted log = [] ∧ st1.m_last_notified_busy = st.m_last_notified_busy) ∨
      (emitted log = [!st.m_last_notified_busy] ∧
        st1.m_last_notified_busy = !st.m_last_notified_busy) := by
  simp only [DataFlowOrchestrator.receive_trigger_decision] at h
  split at h
  · simp only [Option.some.injEq, Prod.mk.injEq] at h
    rw [← h.1, ← h.2]
    exact Or.inl ⟨rfl, rfl⟩
  · cases hloop : DataFlowOrchestrator.decision_loop decision fuel
        { st with m_received_decisions := st.m_received_decisions + 1 } outcomes with
    | none => rw [hloop] at h; cases h
    | some r =>
      obtain ⟨st2, log0, rest⟩ := r
      rw [hloop] at h
      simp only at h
      obtain ⟨hlast, hlog⟩ := decision_loop_last_notified _ _ _ _ _ _ _ hloop
      cases hn : st2.notify_trigger st2.is_busy rest with
      | none => rw [hn] at h; cases h
      | some r2 =>
        obtain ⟨st3, log1, rest1⟩ := r2
        rw [hn] at h
        simp only [Option.some.injEq, Prod.mk.injEq] at h
        rw [← h.1, ← h.2]
        rw [← h.2] at hsent
        exact after_prefix_log st.m_last_notified_busy st2 st3 log0 log1 _ _ _ hlast hlog hn hsent

theorem receive_trigger_complete_token_log (st st1 : DataFlowOrchestrator)
    (token : TriggerDecisionToken) (elapsed : Nat) (outcomes : List Bool) (log : List Event)
    (h : st.receive_trigger_complete_token token elapsed outcomes = some (st1, log))
    (hsent : abandoned log = false) :
    (emitted log = [] ∧ st1.m_last_notified_busy = st.m_last_notified_busy) ∨
      (emitted log = [!st.m_last_notified_busy] ∧
        st1.m_last_notified_busy = !st.m_last_notified_busy) := by
  simp only [DataFlowOrchestrator.receive_trigger_complete_token] at h
  split at h
  · simp only [Option.some.injEq, Prod.mk.injEq] at h
    rw [← h.1, ← h.2]
    exact Or.inl ⟨rfl, rfl⟩
  · split at h
    · simp only [Option.some.injEq, Prod.mk.injEq] at h
      rw [← h.1, ← h.2]
      exact Or.inl ⟨rfl, rfl⟩
    · next app _ =>
      have hprefix : ∀ (st3 : DataFlowOrchestrator) (logp : List Event) (app2 : TriggerRecordBuilderData),
          (if (!app2.is_busy) = true then
              match st3.notify_trigger false outcomes with
              | none => none
              | some (st4, log3, _) => some (st4, logp ++ log3)
            else some (st3, logp)) = some (st1, log) →
          st3.m_last_notified_busy = st.m_last_notified_busy →
          (∀ e ∈ logp, is_inhibit e = false) →
          (emitted log = [] ∧ st1.m_last_notified_busy = st.m_last_notified_busy) ∨
            (emitted log = [!st.m_last_notified_busy] ∧
              st1.m_last_notified_busy = !st.m_last_notified_busy) := by
        intro st3 logp app2 hres hlast hlogp
        split at hres
        · cases hn : st3.notify_trigger false outcomes with
          | none => rw [hn] at hres; cases hres
          | some r =>
            obtain ⟨st4, log3, rest⟩ := r
            rw [hn] at hres
            simp only [Option.some.injEq, Prod.mk.injEq] at hres
            rw [← hres.1, ← hres.2]
            rw [← hres.2] at hsent
            exact after_prefix_log st.m_last_notified_busy st3 st4 logp log3 _ _ _ hlast hlogp hn
              hsent
        · simp only [Option.some.injEq, Prod.mk.injEq] at hres
          rw [← hres.1, ← hres.2]
          exact Or.inl ⟨emitted_of_no_inhibit logp hlogp, hlast⟩
      cases hc : app.complete_assignment token.trigger_number with
      | none =>
        rw [hc] at h
        simp only at h
        cases herr : app.is_in_error with
        | false =>
          rw [herr] at h
          simp only [Bool.false_eq_true, if_false, List.append_nil] at h
          refine hprefix _ _ _ h rfl ?_
          intro e he
          simp only [List.mem_singleton] at he
          rw [he]; rfl
        | true =>
          rw [herr] at h
          simp only [if_true] at h
          refine hprefix _ _ _ h rfl ?_
          intro e he
          simp only [List.mem_append, List.mem_singleton] at he
          rcases he with he | he <;> (rw [he]; rfl)
      | some r =>
        obtain ⟨done, app1⟩ := r
        rw [hc] at h
        simp only at h
        cases herr : app1.is_in_error with
        | false =>
          rw [herr] at h
          simp only [Bool.false_eq_true, if_false] at h
          refine hprefix _ _ _ h rfl ?_
          intro e he
          simp at he
        | true =>
          rw [herr] at h
          simp only [if_true] at h
          refine hprefix _ _ _ h rfl ?_
          intro e he
          simp only [List.nil_append, List.mem_singleton] at he
          rw [he]; rfl

theorem do_stop_end_log (st st1 : DataFlowOrchestrator) (fuel : Nat) (log : List Event)
    (h : st.do_stop_end fuel = some (st1, log)) :
    emitted log = [] ∧ st1.m_last_notified_busy = st.m_last_notified_busy := by
  simp only [DataFlowOrchestrator.do_stop_end] at h
  split at h
  · cases h
  · simp only [Option.some.injEq] at h
    have hstate := congrArg Prod.fst h
    have hlog := congrArg Prod.snd h
    simp only at hstate hlog
    rw [← hstate, ← hlog]
    refine ⟨emitted_of_no_inhibit _ ?_, rfl⟩
    intro e he
    simp only [DataFlowOrchestrator.stop_drain, List.mem_map] at he
    obtain ⟨r, _, rfl⟩ := he
    rfl

theorem step_log (st st1 : DataFlowOrchestrator) (op : Operation) (log : List Event)
    (hop : within_run op = true)
    (h : step st op = some (st1, log))
    (hsent : abandoned log = false) :
    (emitted log = [] ∧ st1.m_last_notified_busy = st.m_last_notified_busy) ∨
      (emitted log = [!st.m_last_notified_busy] ∧
        st1.m_last_notified_busy = !st.m_last_notified_busy) := by
  cases op with
  | start run => cases hop
  | decision d fuel outcomes => exact receive_trigger_decision_log _ _ _ _ _ _ h hsent
  | token t elapsed outcomes => exact receive_trigger_complete_token_log _ _ _ _ _ _ h hsent
  | stop_begin =>
    simp only [step, Option.some.injEq, Prod.mk.injEq] at h
    rw [← h.1, ← h.2]
    exact Or.inl ⟨rfl, rfl⟩
  | stop_end fuel => exact Or.inl (do_stop_end_log _ _ _ _ h)

theorem run_trace_alternates (ops : List Operation) :
    ∀ (st st1 : DataFlowOrchestrator) (logs : List (List Event)),
      (∀ op ∈ ops, within_run op = true) →
      run_trace st ops = some (st1, logs) →
      (∀ log ∈ logs, abandoned log = false) →
      alternates_from st.m_last_notified_busy (emitted logs.flatten) = true ∧
        st1.m_last_notified_busy
          = (emitted logs.flatten).getLastD st.m_last_notified_busy := by
  induction ops with
  | nil =>
    intro st st1 logs _ h _
    simp only [run_trace, Option.some.injEq, Prod.mk.injEq] at h
    rw [← h.1, ← h.2]
    exact ⟨rfl, rfl⟩
  | cons op ops ih =>
    intro st st1 logs hops h hsent
    simp only [run_trace] at h
    cases hs : step st op with
    | none => rw [hs] at h; cases h
    | some r =>
      obtain ⟨st2, log⟩ := r
      rw [hs] at h
      simp only at h
      cases hr : run_trace st2 ops with
      | none => rw [hr] at h; cases h
      | some r2 =>
        obtain ⟨st3, logs1⟩ := r2
        rw [hr] at h
        simp only [Option.some.injEq, Prod.mk.injEq] at h
        obtain ⟨hst, hlogs⟩ := h
        subst hst hlogs
        have hstep := step_log st st2 op log (hops op (List.mem_cons_self _ _)) hs
          (hsent log (List.mem_cons_self _ _))
        obtain ⟨halt, hfinal⟩ := ih st2 st3 logs1
          (fun o ho => hops o (List.mem_cons_of_mem _ ho)) hr
          (fun l hl => hsent l (List.mem_cons_of_mem _ hl))
        rw [List.flatten_cons, emitted_append]
        rcases hstep with ⟨hem, hlast⟩ | ⟨hem, hlast⟩
        · rw [hem, List.nil_append]
          rw [hlast] at halt hfinal
          exact ⟨halt, hfinal⟩
        · rw [hem, List.singleton_append]
          rw [hlast] at halt hfinal
          refine ⟨?_, ?_⟩
          · simp only [alternates_from, halt, Bool.and_true]
            cases st.m_last_notified_busy <;> rfl
          · rw [List.getLastD_cons]
            exact hfinal

/-- C4 (counterexample). Three traces whose successfully sent `TriggerInhibit`
messages carry busy = true twice in a row, all sends of a `TriggerDecision`
succeeding. First a whole life cycle of the destination A (thresholds (1, 0)):
start of run 7, decision 1 (A fills up, busy = true is sent), `do_stop` lowers the
running flag, the token of decision 1 arrives while `do_stop` polls and the send of
busy = false fails once (`notify_trigger` gives up because the flag is down, and
stores false all the same), `do_stop` ends, run 8 starts, decision 2 (busy = true
is sent again). Second, within run 7 alone: the same up to the failed send, then a
decision callback that was already under way. Third, with no failed send at all
and thresholds (2, 1): decisions 1 and 2 (busy = true is sent), a second `do_start`
(which resets the stored value to false without sending), the token of decision 1
(false is the stored value: nothing is sent), decision 3 (busy = true is sent
again). -/
theorem C4_inhibit_repeated_counterexample :
    (run_trace configured_single
        [Operation.start 7,
          Operation.decision { trigger_number := 1, run_number := 7 } 1 [true, true],
          Operation.stop_begin,
          Operation.token { trigger_number := 1, run_number := 7, decision_destination := "A" }
            0 [false],
          Operation.stop_end 1,
          Operation.start 8,
          Operation.decision { trigger_number := 2, run_number := 8 } 1 [true, true]]).map
        (fun r => (emitted r.2.flatten, no_repeat (emitted r.2.flatten)))
      = some ([true, true], false) ∧
    (run_trace scenario_single
        [Operation.decision { trigger_number := 1, run_number := 7 } 1 [true, true],
          Operation.stop_begin,
          Operation.token { trigger_number := 1, run_number := 7, decision_destination := "A" }
            0 [false],
          Operation.decision { trigger_number := 2, run_number := 7 } 1 [true, true]]).map
        (fun r => (emitted r.2.flatten, no_repeat (emitted r.2.flatten)))
      = some ([true, true], false) ∧
    (run_trace ((initial.do_conf [("A", 2, 1)] 1).do_start 7)
        [Operation.decision { trigger_number := 1, run_number := 7 } 1 [true, true],
          Operation.decision { trigger_number := 2, run_number := 7 } 1 [true, true],
          Operation.start 7,
          Operation.token { trigger_number := 1, run_number := 7, decision_destination := "A" }
            0 [true],
          Operation.decision { trigger_number := 3, run_number := 7 } 1 [true, true]]).map
        (fun r => (emitted r.2.flatten, no_repeat (emitted r.2.flatten)))
      = some ([true, true], false) := by
  decide

/-- C4 (amended). Within one run, that is over every trace of
`receive_trigger_decision`, `receive_trigger_complete_token` and `do_stop` steps
with no `do_start` in it, from any state and with any send outcomes and any value
of the running flag, and as long as no `notify_trigger` call leaves its send loop
without a successful send, the busy values of the successfully sent
`TriggerInhibit` messages contain no two identical consecutive entries. The first
of them differs from the value stored in `m_last_notified_busy` when the trace
starts, and the value stored when it ends is the last one sent (the initial one if
none was sent). -/
theorem C4_inhibit_only_on_change (st st1 : DataFlowOrchestrator) (ops : List Operation)
    (logs : List (List Event))
    (hrun : ∀ op ∈ ops, within_run op = true)
    (htrace : run_trace st ops = some (st1, logs))
    (hsent : ∀ log ∈ logs, abandoned log = false) :
    no_repeat (emitted logs.flatten) = true ∧
      alternates_from st.m_last_notified_busy (emitted logs.flatten) = true ∧
      st1.m_last_notified_busy = (emitted logs.flatten).getLastD st.m_last_notified_busy := by
  obtain ⟨halt, hfinal⟩ := run_trace_alternates ops st st1 logs hrun htrace hsent
  refine ⟨?_, halt, hfinal⟩
  cases hl : emitted logs.flatten with
  | nil => rfl
  | cons b rest =>
    rw [hl] at halt
    simp only [alternates_from, Bool.and_eq_true] at halt
    exact halt.2

/-- C4 (witness). Run 7 with the destination A (thresholds (1, 0)): decision 1,
its token, decision 2, every send succeeding. The inhibit goes true, false, true. -/
theorem C4_inhibit_only_on_change_witness :
    (run_trace scenario_single
        [Operation.decision { trigger_number := 1, run_number := 7 } 1 [true, true],
          Operation.token { trigger_number := 1, run_number := 7, decision_destination := "A" }
            5 [true],
          Operation.decision { trigger_number := 2, run_number := 7 } 1 [true, true]]).map
        (fun r => r.2)
      = some
        [[Event.td_sent "A" { trigger_number := 1, run_number := 7 },
            Event.inhibit_sent { busy := true, run_number := 7 }],
          [Event.inhibit_sent { busy := false, run_number := 7 }],
          [Event.td_sent "A" { trigger_number := 2, run_number := 7 },
            Event.inhibit_sent { busy := true, run_number := 7 }]] ∧
    no_repeat [true, false, true] = true :=
  have h := C4_inhibit_only_on_change scenario_single
    { scenario_single with
      m_dataflow_availability :=
        [(TriggerRecordBuilderData.create "A" 1 0).add_assignment
          { decision := { trigger_number := 2, run_number := 7 }, connection_name := "A" }]
      m_app_infos := [("A", 1, 5)]
      m_last_assignement_it := 0
      m_last_notified_busy := true
      m_received_tokens := 1
      m_sent_decisions := 2
      m_received_decisions := 2 }
    [Operation.decision { trigger_number := 1, run_number := 7 } 1 [true, true],
      Operation.token { trigger_number := 1, run_number := 7, decision_destination := "A" }
        5 [true],
      Operation.decision { trigger_number := 2, run_number := 7 } 1 [true, true]]
    [[Event.td_sent "A" { trigger_number := 1, run_number := 7 },
        Event.inhibit_sent { busy := true, run_number := 7 }],
      [Event.inhibit_sent { busy := false, run_number := 7 }],
      [Event.td_sent "A" { trigger_number := 2, run_number := 7 },
        Event.inhibit_sent { busy := true, run_number := 7 }]]
    (by decide) (by decide) (by decide)
  ⟨by decide, h.1⟩

/-! ### C11: what `notify_trigger` stores -/

/-- C11 (the code at the failing input). `notify_trigger` ends with
`m_last_notified_busy.store(busy)` whether or not `wasSentSuccessfully` is set. In
every state with the running flag down, a call with a value other than the stored
one whose send fails gives up after that one attempt, sends nothing, and stores the
new value all the same. So in run 7 of the destination A, after decision 1 (busy =
true is sent), the lowering of the running flag and the token of decision 1 with
the send of busy = false failing, the stored value is false while the only
`TriggerInhibit` sent in the run carries busy = true. -/
theorem C11_stored_without_send (st : DataFlowOrchestrator) (busy : Bool) (rest : List Bool)
    (hdown : st.m_running_status = false)
    (hchange : busy ≠ st.m_last_notified_busy) :
    st.notify_trigger busy (false :: rest)
        = some ({ st with m_last_notified_busy := busy },
            [Event.inhibit_send_failed { busy := busy, run_number := st.m_run_number }], rest) ∧
      emitted [Event.inhibit_send_failed { busy := busy, run_number := st.m_run_number }] = [] ∧
      (run_trace scenario_single
          [Operation.decision { trigger_number := 1, run_number := 7 } 1 [true, true],
            Operation.stop_begin,
            Operation.token { trigger_number := 1, run_number := 7, decision_destination := "A" }
              0 [false]]).map
          (fun r => (r.1.m_last_notified_busy, emitted r.2.flatten))
        = some (false, [true]) := by
  refine ⟨?_, rfl, by decide⟩
  simp only [DataFlowOrchestrator.notify_trigger, if_neg hchange, hdown,
    DataFlowOrchestrator.notify_trigger_loop, Bool.false_eq_true, if_false]

/-- C11 (witness). The destination A holds decision 1 and busy = true is the stored
value; the running flag is down. `notify_trigger(false)` with a failing send stores
false and sends nothing. -/
theorem C11_stored_without_send_witness :
    { scenario_outstanding with
        m_running_status := false, m_last_notified_busy := true }.notify_trigger false [false]
      = some ({ scenario_outstanding with
            m_running_status := false, m_last_notified_busy := false },
          [Event.inhibit_send_failed { busy := false, run_number := 7 }], []) :=
  (C11_stored_without_send
    { scenario_outstanding with m_running_status := false, m_last_notified_busy := true }
    false [] (by decide) (by decide)).1

/-! ### C12: the decision path with the running flag down -/

end dfmodules
